import Mathlib

set_option maxHeartbeats 1000000

namespace DataTales

/-- Scalar cell values of the table engine.  A pandas cell is modelled as one
of: the canonical null (covering `NaN`, `NaT`, `None` and absent keys), an
exact rational number (floats and ints are modelled exactly as rationals),
a string, a boolean, or a datetime value carried as its string form. -/
inductive Value where
  | vnull
  | vnum (q : ℚ)
  | vstr (s : String)
  | vbool (b : Bool)
  | vdate (s : String)
  deriving DecidableEq, Repr

/-- String form of an integer-valued or general rational, standing in for
Python `str()` on a numeric cell.  Integer-valued rationals print without a
fractional part (matching `str()` on an int/object-int cell); the string form
of a non-integer rational is a modelling choice (no claim stringifies one). -/
def numToStr (q : ℚ) : String :=
  if q.den = 1 then toString q.num else toString q

/-- Python `str()` / pandas `astype(str)` on a cell.  A null cell stringifies
to `"nan"` (the form taken by `float('nan')`; an object-dtype `None` would
give `"None"` — both are null tokens and non-boolean tokens, so every claim
is insensitive to the choice). -/
def Value.toStr : Value → String
  | .vnull => "nan"
  | .vnum q => numToStr q
  | .vstr s => s
  | .vbool b => if b then "True" else "False"
  | .vdate s => s

/-- Numeric value of a list of decimal digit characters. -/
def digitsToNat (l : List Char) : ℕ :=
  l.foldl (fun a c => 10 * a + (c.toNat - 48)) 0

/-- Strip leading and trailing whitespace from a character list.  The
string functions of this embedding work on character lists (rather than the
byte-position-based library versions) so that concrete witnesses evaluate
by kernel reduction; they agree with Python `strip`/`lower`/`upper` on the
ASCII data the engine handles. -/
def trimChars (cs : List Char) : List Char :=
  ((cs.dropWhile Char.isWhitespace).reverse.dropWhile Char.isWhitespace).reverse

/-- Python `str.strip()`. -/
def strTrim (s : String) : String := String.mk (trimChars s.data)

/-- Python `str.lower()` (ASCII). -/
def strLower (s : String) : String := String.mk (s.data.map Char.toLower)

/-- Python `str.upper()` (ASCII). -/
def strUpper (s : String) : String := String.mk (s.data.map Char.toUpper)

/-- Best-effort parse of a decimal numeric string (optional sign, integer
part, optional fractional part), standing in for the string case of
`pandas.to_numeric(errors='coerce')`.  Returns `none` when the string is not
numeric. -/
def parseNumString (s : String) : Option ℚ :=
  let cs := trimChars s.data
  let p : ℚ × List Char :=
    match cs with
    | '-' :: rest => (-1, rest)
    | '+' :: rest => (1, rest)
    | rest => (1, rest)
  let intPart := p.2.takeWhile (fun c => c ≠ '.')
  match p.2.drop intPart.length with
  | [] =>
      if intPart ≠ [] ∧ intPart.all Char.isDigit then
        some (p.1 * (digitsToNat intPart : ℚ))
      else none
  | _ :: fracPart =>
      if fracPart.all (fun c => c ≠ '.')
          ∧ (intPart ≠ [] ∨ fracPart ≠ [])
          ∧ intPart.all Char.isDigit ∧ fracPart.all Char.isDigit then
        some (p.1 * ((digitsToNat intPart : ℚ)
          + (digitsToNat fracPart : ℚ) / ((10 : ℚ) ^ fracPart.length)))
      else none

/-- `pandas.to_numeric(errors='coerce')` on a single cell: numbers pass
through, booleans coerce to 0/1, numeric strings parse, everything else
(including null) coerces to null. -/
def Value.coerceNum : Value → Option ℚ
  | .vnull => none
  | .vnum q => some q
  | .vstr s => parseNumString s
  | .vbool b => some (if b then 1 else 0)
  | .vdate _ => none

/-- Arithmetic mean of a list of rationals (caller guarantees nonemptiness,
as pandas `.mean()` is only reached on nonempty valid data here). -/
def qmean (l : List ℚ) : ℚ := l.sum / (l.length : ℚ)

/-- Minimum of a nonempty list of rationals (`Series.min`). -/
def qmin : List ℚ → ℚ
  | [] => 0
  | x :: xs => xs.foldl min x

/-- Maximum of a nonempty list of rationals (`Series.max`). -/
def qmax : List ℚ → ℚ
  | [] => 0
  | x :: xs => xs.foldl max x

/-- Insert into a sorted list of rationals, ascending. -/
def insertSorted (x : ℚ) : List ℚ → List ℚ
  | [] => [x]
  | y :: ys => if x ≤ y then x :: y :: ys else y :: insertSorted x ys

/-- Insertion sort, ascending — the sorted view pandas quantile/median
computations work over. -/
def sortQ (l : List ℚ) : List ℚ := l.foldr insertSorted []

/-- Median as pandas computes it: middle element of the sorted data for odd
length, mean of the two middle elements for even length. -/
def qmedian (l : List ℚ) : ℚ :=
  let s := sortQ l
  let n := s.length
  if n % 2 = 1 then s.getD (n / 2) 0
  else (s.getD (n / 2 - 1) 0 + s.getD (n / 2) 0) / 2

/-- Quantile with linear interpolation (pandas' default): the value at
fractional position `p * (n - 1)` of the sorted data. -/
def qquantile (l : List ℚ) (p : ℚ) : ℚ :=
  let s := sortQ l
  let n := s.length
  let h : ℚ := p * ((n : ℚ) - 1)
  let i : ℕ := h.floor.toNat
  let lo := s.getD i 0
  let hi := s.getD (min (i + 1) (n - 1)) 0
  lo + (h - (i : ℚ)) * (hi - lo)

/-- Sample variance with `ddof = 1` (the square of pandas' default
`Series.std`); caller guarantees at least two data points. -/
def sampleVar (l : List ℚ) : ℚ :=
  (l.map (fun x => (x - qmean l) ^ 2)).sum / ((l.length : ℚ) - 1)

/-- A table: pandas `DataFrame` modelled as a column-name list plus rows of
cells aligned positionally with the column list. -/
structure Table where
  cols : List String
  rows : List (List Value)
  deriving DecidableEq, Repr

/-- `DataFrame.empty`: true when either axis has length zero. -/
def Table.isEmpty (t : Table) : Bool := t.rows.isEmpty || t.cols.isEmpty

/-- `column in df.columns`. -/
def Table.hasCol (t : Table) (c : String) : Bool := t.cols.contains c

/-- The cells of one named column, top to bottom. -/
def Table.column (t : Table) (c : String) : List Value :=
  t.rows.map (fun r => r.getD (t.cols.indexOf c) Value.vnull)

/-- Overwrite an existing column, or append a new one
(`df[column] = series`). -/
def Table.setCol (t : Table) (c : String) (vs : List Value) : Table :=
  if t.cols.contains c then
    ⟨t.cols, (t.rows.zip vs).map (fun p => p.1.set (t.cols.indexOf c) p.2)⟩
  else
    ⟨t.cols ++ [c], (t.rows.zip vs).map (fun p => p.1 ++ [p.2])⟩

/-- `df.to_dict('records')` with nulls already canonical: each row paired
with the column names. -/
def Table.records (t : Table) : List (List (String × Value)) :=
  t.rows.map (fun r => t.cols.zip r)

/-- Column names of a row-set in order of first appearance, as DataFrame
construction from a list of dicts collects them. -/
def collectCols (data : List (List (String × Value))) : List String :=
  data.foldl
    (fun acc row => row.foldl
      (fun a p => if a.contains p.1 then a else a ++ [p.1]) acc) []

/-- Look a key up in a record row, null when absent.  Record rows model
Python dicts, so keys are assumed unique per row. -/
def lookupVal (row : List (String × Value)) (c : String) : Value :=
  match row.lookup c with
  | some v => v
  | none => Value.vnull

/-- `pd.DataFrame(data)` on a list of record rows: the union of keys in
first-appearance order, each row rectangularized with nulls for absent
keys. -/
def mkTable (data : List (List (String × Value))) : Table :=
  ⟨collectCols data, data.map (fun row => (collectCols data).map (lookupVal row))⟩

/-- Keep each element the first time it is seen, skipping elements already
in `seen` — the semantics of `DataFrame.drop_duplicates` (keep='first'). -/
def keepFirsts {α : Type} [DecidableEq α] (seen : List α) : List α → List α
  | [] => []
  | x :: xs =>
      if seen.contains x then keepFirsts seen xs
      else x :: keepFirsts (x :: seen) xs

/-- Modelled from the spec's words: "the first occurrences of each distinct
row, preserved in their original relative order" — scan left to right,
appending each row the first time it appears. -/
def firstOccurrencesSpec {α : Type} [DecidableEq α] (l : List α) : List α :=
  l.foldl (fun acc x => if acc.contains x then acc else acc ++ [x]) []

/-- Abstract interpretations for the two library computations whose exact
results are not rational-arithmetic expressible: `sq` models the square root
numpy takes of the sample variance (the true square root of a rational is
irrational in general), and `pdate` models `pandas.to_datetime` with
`errors='coerce'` (`none` = NaT).  Every theorem quantifies over the
oracle, so it holds in particular for the true interpretations. -/
structure Oracle where
  sq : ℚ → ℚ
  pdate : Value → Option String

/-- Numeric detail parameters reported by detection/scaling (`none` models a
NaN parameter such as the sample std of a single observation). -/
abbrev Details := List (String × Option ℚ)

/-- Access one numeric parameter of a details dictionary
(`detection_result['details'][key]`); the 0 default is never reached on the
paths the source exercises. -/
def detGet (d : Details) (k : String) : ℚ :=
  ((d.lookup k).getD none).getD 0

/-- The dictionary `detect_outliers` builds on success. -/
structure DetectInfo where
  column : String
  method : String
  outlierCount : ℕ
  indices : List ℕ
  details : Details
  message : Option String
  deriving DecidableEq, Repr

/-- The result-or-error envelope every engine operation returns.  Success
constructors carry the serialized table (`data`) plus the operation-specific
metadata keys of the returned dictionary. -/
inductive EngResult where
  | error (msg : String)
  | okDedup (data : List (List (String × Value))) (removedCount : ℕ)
  | okMissing (data : List (List (String × Value))) (missingCount : ℕ)
      (method : String) (message : Option String)
  | okConvert (data : List (List (String × Value))) (column origType newType : String)
      (warning : Option String)
  | okText (data : List (List (String × Value))) (column : String) (applied : List String)
  | okScale (data : List (List (String × Value))) (column method : String)
      (details : Details) (newColumn : Option String)
  | okDetect (info : DetectInfo)
  | okOutliers (data : List (List (String × Value))) (column method : String)
      (outlierCount : ℕ) (detectionMethod : Option String) (details : Details)
      (message : Option String)
  | okDerived (data : List (List (String × Value))) (operation : String)
      (sourceColumns : List String) (newColumn : String)
  | okInconsistent (data : List (List (String × Value))) (column : String)
      (originalValues standardizedValues : List Value) (mappingApplied : Bool)
  | okReset (data : List (List (String × Value))) (message : String)
  deriving DecidableEq, Repr

/-- Callers distinguish success from failure by the presence of the error
key. -/
def EngResult.isError : EngResult → Bool
  | .error _ => true
  | _ => false

/-- The engine: the immutable original snapshot taken at construction and
the mutable working table. -/
structure Engine where
  original_data : List (List (String × Value))
  df : Table
  deriving DecidableEq, Repr

/-- Construction: copy the input row-set and build the working table from
it. -/
def Engine.init (data : List (List (String × Value))) : Engine :=
  ⟨data, mkTable data⟩

/-- Count of null cells in a column (`Series.isna().sum()`). -/
def countMissing (col : List Value) : ℕ :=
  (col.filter (· = Value.vnull)).length

/-- `Series.fillna(v)`. -/
def fillna (col : List Value) (v : Value) : List Value :=
  col.map (fun c => if c = Value.vnull then v else c)

/-- Surrogate for `pd.api.types.is_numeric_dtype`: a column carries a
numeric dtype when every cell is a number or null and at least one cell is a
number (an all-null object column is not numeric, matching columns as
constructed from records). -/
def isNumericDtype (col : List Value) : Bool :=
  col.any (fun v => match v with | .vnum _ => true | _ => false)
    && col.all (fun v => match v with | .vnum _ => true | .vnull => true | _ => false)

/-- Surrogate for `str(column.dtype)`, used only for the reported
`original_type` metadata. -/
def dtypeStr (col : List Value) : String :=
  if isNumericDtype col then "float64" else "object"

/-- Artificial total comparison on cells, standing in for the value ordering
pandas applies when sorting mode candidates; no claim depends on which
representative a tie selects. -/
def valueLE (a b : Value) : Bool :=
  match a, b with
  | .vnum x, .vnum y => decide (x ≤ y)
  | .vstr x, .vstr y => decide (x ≤ y)
  | .vbool x, .vbool y => !x || y
  | .vdate x, .vdate y => decide (x ≤ y)
  | .vnull, _ => true
  | _, .vnull => false
  | .vbool _, _ => true
  | _, .vbool _ => false
  | .vnum _, _ => true
  | _, .vnum _ => false
  | .vstr _, _ => true
  | _, .vstr _ => false

/-- Least element of a nonempty candidate list under `valueLE`. -/
def minByLE : List Value → Value
  | [] => Value.vnull
  | x :: xs => xs.foldl (fun a b => if valueLE b a then b else a) x

/-- `Series.mode()[0]` on a nonempty list of non-null cells: a value of
maximal multiplicity, least under the comparison among the tied ones. -/
def modeValue (l : List Value) : Value :=
  let cands := keepFirsts [] l
  let maxC := cands.foldl (fun a v => max a (l.count v)) 0
  minByLE (cands.filter (fun v => l.count v = maxC))

/-- `remove_duplicates`: early success on an empty table, otherwise drop
exact duplicate rows keeping first occurrences and report the removed
count. -/
def remove_duplicates (e : Engine) (_consider_all_columns : Bool) :
    EngResult × Engine :=
  if e.df.isEmpty then (.okDedup [] 0, e)
  else
    let newRows := keepFirsts [] e.df.rows
    let t : Table := ⟨e.df.cols, newRows⟩
    (.okDedup t.records (e.df.rows.length - newRows.length), { e with df := t })

/-- `handle_missing_values` (error-message quotes around names elided). -/
def handle_missing_values (e : Engine) (column method : String)
    (custom_value : Option Value) : EngResult × Engine :=
  if e.df.isEmpty then (.error "Cannot handle missing values on empty data.", e)
  else if !(e.df.hasCol column) then
    (.error ("Column " ++ column ++ " not found."), e)
  else
    let col := e.df.column column
    let missing := countMissing col
    if missing = 0 then
      (.okMissing e.df.records 0 method
        (some ("No missing values found in column " ++ column ++ ".")), e)
    else if method = "remove" then
      let idx := e.df.cols.indexOf column
      let newRows := e.df.rows.filter (fun r => r.getD idx Value.vnull ≠ Value.vnull)
      let t : Table := ⟨e.df.cols, newRows⟩
      (.okMissing t.records missing method none, { e with df := t })
    else if method = "mean" ∨ method = "median" then
      if isNumericDtype col then
        let valids := col.filterMap Value.coerceNum
        let fv := if method = "mean" then qmean valids else qmedian valids
        let t := e.df.setCol column (fillna col (Value.vnum fv))
        (.okMissing t.records missing method none, { e with df := t })
      else
        let valids := col.filterMap Value.coerceNum
        if valids.isEmpty then
          (.error ("Cannot calculate " ++ method ++ " for non-numeric column "
            ++ column ++ "."), e)
        else
          let fv := if method = "mean" then qmean valids else qmedian valids
          let t := e.df.setCol column (fillna col (Value.vnum fv))
          (.okMissing t.records missing method none, { e with df := t })
    else if method = "mode" then
      let nonNull := col.filter (· ≠ Value.vnull)
      if nonNull.isEmpty then
        (.error ("Cannot calculate mode for column " ++ column
          ++ " (possibly all NaN or empty)."), e)
      else
        let t := e.df.setCol column (fillna col (modeValue nonNull))
        (.okMissing t.records missing method none, { e with df := t })
    else if method = "custom" then
      match custom_value with
      | none => (.error "Custom value must be provided for method custom.", e)
      | some cv =>
        let typed :=
          if isNumericDtype col then
            match cv.coerceNum with
            | some q => Value.vnum q
            | none => cv
          else cv
        let t := e.df.setCol column (fillna col typed)
        (.okMissing t.records missing method none, { e with df := t })
    else
      (.error ("Invalid method " ++ method
        ++ ". Choose from remove, mean, median, mode, custom."), e)

/-- The fixed truth table of boolean conversion: case-insensitive lookup of
the stringified cell; values outside the table become null.  The integer
keys 1/0 of the source dictionary are unreachable after `astype(str)`. -/
def convertBoolCell (v : Value) : Value :=
  let s := strLower v.toStr
  if s = "true" ∨ s = "1" ∨ s = "yes" then Value.vbool true
  else if s = "false" ∨ s = "0" ∨ s = "no" then Value.vbool false
  else Value.vnull

/-- The conversion warning attached when cells that held data failed to
convert. -/
def mkWarning (errs : ℕ) : Option String :=
  if errs > 0 then
    some (toString errs ++ " value(s) could not be converted and were set to null.")
  else none

/-- `convert_types`. -/
def convert_types (O : Oracle) (e : Engine) (column target_type : String) :
    EngResult × Engine :=
  if e.df.isEmpty then (.error "Cannot convert types on empty data.", e)
  else if !(e.df.hasCol column) then
    (.error ("Column " ++ column ++ " not found."), e)
  else
    let col := e.df.column column
    let origType := dtypeStr col
    if target_type = "text" then
      let t := e.df.setCol column (col.map (fun v => Value.vstr v.toStr))
      (.okConvert t.records column origType target_type none, { e with df := t })
    else if target_type = "number" then
      let newCol := col.map (fun v =>
        match v.coerceNum with
        | some q => Value.vnum q
        | none => Value.vnull)
      let errs := countMissing newCol - countMissing col
      let t := e.df.setCol column newCol
      (.okConvert t.records column origType target_type (mkWarning errs),
        { e with df := t })
    else if target_type = "date" then
      let newCol := col.map (fun v =>
        match O.pdate v with
        | some d => Value.vdate d
        | none => Value.vnull)
      let errs := countMissing newCol - countMissing col
      let t := e.df.setCol column newCol
      (.okConvert t.records column origType target_type (mkWarning errs),
        { e with df := t })
    else if target_type = "boolean" then
      let newCol := col.map convertBoolCell
      let errs := countMissing newCol - countMissing col
      let t := e.df.setCol column newCol
      (.okConvert t.records column origType target_type (mkWarning errs),
        { e with df := t })
    else
      (.error ("Invalid target type " ++ target_type
        ++ ". Choose from text, number, date, boolean."), e)

/-- The recognized text-cleaning operation names, in source order. -/
def textOpNames : List String :=
  ["trim", "lowercase", "uppercase", "remove_punctuation", "remove_digits"]

/-- One text transform applied to one cell string; unknown names act as the
identity (they are silently skipped).  `remove_punctuation` keeps word
characters (alphanumeric or underscore) and whitespace, mirroring the
regular expression of the source. -/
def applyTextOp (s : String) (op : String) : String :=
  if op = "trim" then strTrim s
  else if op = "lowercase" then strLower s
  else if op = "uppercase" then strUpper s
  else if op = "remove_punctuation" then
    String.mk (s.toList.filter (fun c => c.isAlphanum || c = '_' || c.isWhitespace))
  else if op = "remove_digits" then
    String.mk (s.toList.filter (fun c => !c.isDigit))
  else s

/-- `clean_text`: the net effect of stringifying the column and folding the
requested transforms over it in order; the returned list holds only the
recognized operation names. -/
def clean_text (e : Engine) (column : String) (operations : List String) :
    EngResult × Engine :=
  if e.df.isEmpty then (.error "Cannot clean text on empty data.", e)
  else if !(e.df.hasCol column) then
    (.error ("Column " ++ column ++ " not found."), e)
  else
    let col := e.df.column column
    let newCol := col.map (fun v => Value.vstr (operations.foldl applyTextOp v.toStr))
    let valid := operations.filter (fun op => textOpNames.contains op)
    let t := e.df.setCol column newCol
    (.okText t.records column valid, { e with df := t })

/-- Rebuild a column of cells from optional scaled numbers; the positions
that did not coerce stay null (`scaled_col[original_nans] = np.nan`). -/
def scaledToValues (nums : List (Option ℚ)) (f : ℚ → ℚ) : List Value :=
  nums.map (fun o =>
    match o with
    | some x => Value.vnum (f x)
    | none => Value.vnull)

/-- `_scale_column`, the shared scaling routine behind `normalize_data` and
`standardize_data`.  The sample std of a single observation is NaN
(`ddof=1`), modelled as `none`: the `std == 0` test is then false and the
NaN division nulls the whole column. -/
def scale_column (O : Oracle) (e : Engine) (column method : String)
    (preserve_original : Bool) : EngResult × Engine :=
  if e.df.isEmpty then (.error "Cannot scale data on empty DataFrame.", e)
  else if !(e.df.hasCol column) then
    (.error ("Column " ++ column ++ " not found."), e)
  else
    let col := e.df.column column
    let nums := col.map Value.coerceNum
    if nums.all Option.isNone then
      (.error ("Column " ++ column
        ++ " cannot be scaled as it does not contain numeric data."), e)
    else
      let valids := nums.filterMap id
      if valids.isEmpty then
        (.error ("No valid numeric data found in column " ++ column ++ " to scale."), e)
      else
        let target := if preserve_original then column ++ "_" ++ method ++ "d" else column
        if preserve_original && e.df.hasCol target then
          (.error ("Column " ++ target ++ " already exists."), e)
        else if method = "normalize" then
          let mn := qmin valids
          let mx := qmax valids
          let scaled :=
            if mx - mn = 0 then scaledToValues nums (fun _ => 0)
            else scaledToValues nums (fun x => (x - mn) / (mx - mn))
          let t := e.df.setCol target scaled
          (.okScale t.records column method [("min", some mn), ("max", some mx)]
            (if preserve_original then some target else none), { e with df := t })
        else if method = "standardize" then
          let m := qmean valids
          if valids.length ≤ 1 then
            let t := e.df.setCol target (nums.map (fun _ => Value.vnull))
            (.okScale t.records column method [("mean", some m), ("std_dev", none)]
              (if preserve_original then some target else none), { e with df := t })
          else
            let s := O.sq (sampleVar valids)
            if s = 0 then
              let t := e.df.setCol target (scaledToValues nums (fun _ => 0))
              (.okScale t.records column method
                [("mean", some m), ("std_dev", some s)]
                (if preserve_original then some target else none), { e with df := t })
            else
              let t := e.df.setCol target (scaledToValues nums (fun x => (x - m) / s))
              (.okScale t.records column method
                [("mean", some m), ("std_dev", some s)]
                (if preserve_original then some target else none), { e with df := t })
        else
          (.error "Invalid scaling method. Use normalize or standardize.", e)

/-- `detect_outliers`, the read-only core shared with `handle_outliers`. -/
def detect_outliers_core (O : Oracle) (t : Table) (column method : String)
    (threshold : ℚ) : Except String DetectInfo :=
  if t.isEmpty then .error "Cannot detect outliers on empty data."
  else if !(t.hasCol column) then
    .error ("Column " ++ column ++ " not found.")
  else
    let nums := (t.column column).map Value.coerceNum
    let valids := nums.filterMap id
    if valids.isEmpty then
      .error ("No valid numeric data found in column " ++ column ++ ".")
    else if method = "zscore" then
      let m := qmean valids
      let sd : Option ℚ :=
        if valids.length ≤ 1 then none else some (O.sq (sampleVar valids))
      if sd = some 0 then
        .ok ⟨column, method, 0, [], [],
          some ("No outliers detected (all values identical in " ++ column ++ ").")⟩
      else
        let flags := nums.map (fun o =>
          match o, sd with
          | some x, some s => if |(x - m) / s| > threshold then true else false
          | _, _ => false)
        let indices := (flags.enum.filter (fun p => p.2)).map (fun p => p.1)
        .ok ⟨column, method, indices.length, indices,
          [("mean", some m), ("std_dev", sd), ("threshold", some threshold)], none⟩
    else if method = "iqr" then
      let q1 := qquantile valids (1 / 4)
      let q3 := qquantile valids (3 / 4)
      let iqr := q3 - q1
      if iqr = 0 then
        .ok ⟨column, method, 0, [],  [],
          some ("No outliers detected (IQR is 0 in " ++ column ++ ").")⟩
      else
        let lower := q1 - (3 / 2) * iqr
        let upper := q3 + (3 / 2) * iqr
        let flags := nums.map (fun o =>
          match o with
          | some x => if x < lower ∨ x > upper then true else false
          | none => false)
        let indices := (flags.enum.filter (fun p => p.2)).map (fun p => p.1)
        .ok ⟨column, method, indices.length, indices,
          [("q1", some q1), ("q3", some q3), ("iqr", some iqr),
            ("lower_bound", some lower), ("upper_bound", some upper)], none⟩
    else
      .error ("Invalid method " ++ method ++ ". Choose zscore or iqr.")

/-- `detect_outliers` as a public operation: read-only. -/
def detect_outliers (O : Oracle) (e : Engine) (column method : String)
    (threshold : ℚ) : EngResult × Engine :=
  match detect_outliers_core O e.df column method threshold with
  | .error msg => (.error msg, e)
  | .ok info => (.okDetect info, e)

/-- `handle_outliers`: runs detection first, propagates its error, succeeds
without mutation when nothing was flagged, otherwise clips, removes or
replaces. -/
def handle_outliers (O : Oracle) (e : Engine) (column method detection_method : String)
    (threshold : ℚ) : EngResult × Engine :=
  match detect_outliers_core O e.df column detection_method threshold with
  | .error msg => (.error msg, e)
  | .ok info =>
    if info.outlierCount = 0 then
      (.okOutliers e.df.records column method 0 none []
        (some ("No outliers detected in " ++ column ++ " using "
          ++ detection_method ++ ".")), e)
    else
      let nums := (e.df.column column).map Value.coerceNum
      let valids := nums.filterMap id
      if method = "clip" then
        let lower :=
          if detection_method = "iqr" then detGet info.details "lower_bound"
          else detGet info.details "mean" - threshold * detGet info.details "std_dev"
        let upper :=
          if detection_method = "iqr" then detGet info.details "upper_bound"
          else detGet info.details "mean" + threshold * detGet info.details "std_dev"
        let newCol := nums.map (fun o =>
          match o with
          | some x => Value.vnum (min (max x lower) upper)
          | none => Value.vnull)
        let t := e.df.setCol column newCol
        (.okOutliers t.records column method info.outlierCount
          (some detection_method) info.details none, { e with df := t })
      else if method = "remove" then
        let newRows := (e.df.rows.enum.filter
          (fun p => !(info.indices.contains p.1))).map (fun p => p.2)
        let t : Table := ⟨e.df.cols, newRows⟩
        (.okOutliers t.records column method info.outlierCount
          (some detection_method) info.details none, { e with df := t })
      else if method = "mean" ∨ method = "median" then
        let rv := if method = "mean" then qmean valids else qmedian valids
        let idx := e.df.cols.indexOf column
        let newRows := e.df.rows.enum.map (fun p =>
          if info.indices.contains p.1 then p.2.set idx (Value.vnum rv) else p.2)
        let t : Table := ⟨e.df.cols, newRows⟩
        (.okOutliers t.records column method info.outlierCount
          (some detection_method) info.details none, { e with df := t })
      else
        (.error ("Invalid method " ++ method
          ++ ". Choose clip, remove, mean, or median."), e)

/-- Auto-generated derived-column name, truncating an over-long join of the
source column names. -/
def autoName (operation : String) (columns : List String) : String :=
  let joined := String.intercalate "_and_" columns
  let part := if joined.length > 50 then toString columns.length ++ "_columns" else joined
  operation ++ "_of_" ++ part

/-- The cells of one row at the listed columns. -/
def rowCells (cols columns : List String) (r : List Value) : List Value :=
  columns.map (fun c => r.getD (cols.indexOf c) Value.vnull)

/-- The derived cell of one row.  Row-wise `sum`/`product` skip nulls, so an
all-null row yields the identity 0/1 (the subsequent `fillna(0)`/`fillna(1)`
of the source is then a no-op); `mean`/`median` of an all-null row stay
null; `difference` subtracts the two coerced cells; `mode` works on raw
values. -/
def derivedCell (operation : String) (cols columns : List String) (r : List Value) :
    Value :=
  let cells := rowCells cols columns r
  let valids := (cells.map Value.coerceNum).filterMap id
  if operation = "sum" then Value.vnum valids.sum
  else if operation = "mean" then
    if valids.isEmpty then Value.vnull else Value.vnum (qmean valids)
  else if operation = "median" then
    if valids.isEmpty then Value.vnull else Value.vnum (qmedian valids)
  else if operation = "product" then Value.vnum valids.prod
  else if operation = "difference" then
    match (cells.getD 0 Value.vnull).coerceNum, (cells.getD 1 Value.vnull).coerceNum with
    | some a, some b => Value.vnum (a - b)
    | _, _ => Value.vnull
  else
    let nonNull := cells.filter (· ≠ Value.vnull)
    if nonNull.isEmpty then Value.vnull else modeValue nonNull

/-- `add_derived_column`. -/
def add_derived_column (e : Engine) (operation : String) (columns : List String)
    (new_column_name : Option String) : EngResult × Engine :=
  if e.df.isEmpty then (.error "Cannot add derived column to empty data.", e)
  else if columns.isEmpty then (.error "No columns specified for operation.", e)
  else
    match columns.find? (fun c => !(e.df.hasCol c)) with
    | some c => (.error ("Column " ++ c ++ " not found."), e)
    | none =>
      let name := new_column_name.getD (autoName operation columns)
      if e.df.hasCol name then (.error ("Column " ++ name ++ " already exists."), e)
      else if operation = "difference" ∧ columns.length ≠ 2 then
        (.error "Difference operation requires exactly 2 columns.", e)
      else if ["sum", "mean", "median", "product", "difference", "mode"].contains operation then
        let t := e.df.setCol name (e.df.rows.map (derivedCell operation e.df.cols columns))
        (.okDerived t.records operation columns name, { e with df := t })
      else
        (.error ("Invalid operation " ++ operation
          ++ ". Choose sum, mean, median, mode, product, or difference."), e)

/-- The boolean-token vocabulary of auto-standardization. -/
def boolTokens : List String :=
  ["true", "false", "yes", "no", "1", "0", "t", "f", "y", "n"]

/-- The tokens of the vocabulary that map to `True`. -/
def truthyTokens : List String := ["true", "yes", "1", "t", "y"]

/-- The null-token strings collapsed to null. -/
def nullTokens : List String := ["null", "none", "nan", "na", ""]

/-- `handle_inconsistent_data`.  A `None` or empty mapping dictionary is
falsy in Python, so both select the auto-standardization branch; the
case-insensitive mapping lowers keys with later duplicates winning (Python
dict comprehension), modelled by a reversed association-list lookup. -/
def handle_inconsistent_data (e : Engine) (column : String)
    (mapping : Option (List (String × Value))) (case_sensitive : Bool) :
    EngResult × Engine :=
  if e.df.isEmpty then (.error "Cannot process inconsistent data on empty data.", e)
  else if !(e.df.hasCol column) then
    (.error ("Column " ++ column ++ " not found."), e)
  else
    let col := e.df.column column
    let origVals := keepFirsts [] col
    let mappingList := mapping.getD []
    let newCol :=
      if !mappingList.isEmpty then
        if case_sensitive then
          col.map (fun v =>
            match v with
            | Value.vstr s =>
              (match mappingList.lookup s with
              | some w => w
              | none => v)
            | _ => v)
        else
          let lowered := (mappingList.map (fun p => (strLower p.1, p.2))).reverse
          col.map (fun v =>
            match lowered.lookup (strLower v.toStr) with
            | some w => w
            | none => v)
      else
        let strCol := col.map (fun v => strTrim v.toStr)
        let afterBool :=
          if strCol.all (fun s => boolTokens.contains (strLower s)) then
            strCol.map (fun s => Value.vbool (truthyTokens.contains (strLower s)))
          else strCol.map Value.vstr
        afterBool.map (fun v =>
          if nullTokens.contains (strLower v.toStr) then Value.vnull else v)
    let t := e.df.setCol column newCol
    (.okInconsistent t.records column origVals (keepFirsts [] newCol)
      (!mappingList.isEmpty), { e with df := t })

/-- `reset_changes`: replace the working table with one rebuilt from the
original snapshot (the defensive exception path of the source is
unreachable in the model). -/
def reset_changes (e : Engine) : EngResult × Engine :=
  let t := mkTable e.original_data
  (.okReset t.records "Data reset to original state successfully.", { e with df := t })

/-- One public engine operation with its arguments. -/
inductive Op where
  | removeDuplicates (consider_all_columns : Bool)
  | handleMissingValues (column method : String) (custom_value : Option Value)
  | convertTypes (column target_type : String)
  | cleanText (column : String) (operations : List String)
  | scaleColumn (column method : String) (preserve_original : Bool)
  | detectOutliers (column method : String) (threshold : ℚ)
  | handleOutliers (column method detection_method : String) (threshold : ℚ)
  | addDerivedColumn (operation : String) (columns : List String)
      (new_column_name : Option String)
  | handleInconsistentData (column : String)
      (mapping : Option (List (String × Value))) (case_sensitive : Bool)
  | resetChanges
  deriving DecidableEq, Repr

/-- Dispatch one operation against the engine. -/
def applyOp (O : Oracle) (op : Op) (e : Engine) : EngResult × Engine :=
  match op with
  | .removeDuplicates c => remove_duplicates e c
  | .handleMissingValues col m cv => handle_missing_values e col m cv
  | .convertTypes col tt => convert_types O e col tt
  | .cleanText col ops => clean_text e col ops
  | .scaleColumn col m p => scale_column O e col m p
  | .detectOutliers col m th => detect_outliers O e col m th
  | .handleOutliers col m dm th => handle_outliers O e col m dm th
  | .addDerivedColumn o cs n => add_derived_column e o cs n
  | .handleInconsistentData col mp cs => handle_inconsistent_data e col mp cs
  | .resetChanges => reset_changes e

/-- Run a sequence of operations, discarding the envelopes. -/
def runOps (O : Oracle) (e : Engine) : List Op → Engine
  | [] => e
  | op :: ops => runOps O (applyOp O op e).2 ops

theorem keepFirsts_sublist {α : Type} [DecidableEq α] (seen l : List α) :
    (keepFirsts seen l).Sublist l := by
  induction l generalizing seen with
  | nil => simp [keepFirsts]
  | cons x xs ih =>
    simp only [keepFirsts]
    split
    · exact (ih seen).trans (List.sublist_cons_self x xs)
    · exact (ih (x :: seen)).cons₂ x

theorem mem_keepFirsts {α : Type} [DecidableEq α] (seen l : List α) (x : α) :
    x ∈ keepFirsts seen l ↔ x ∈ l ∧ x ∉ seen := by
  induction l generalizing seen with
  | nil => simp [keepFirsts]
  | cons y ys ih =>
    simp only [keepFirsts]
    split
    · rename_i h
      replace h : y ∈ seen := by simpa using h
      rw [ih]
      constructor
      · rintro ⟨hx, hs⟩
        exact ⟨List.mem_cons_of_mem y hx, hs⟩
      · rintro ⟨hx, hs⟩
        rcases List.mem_cons.mp hx with rfl | hx
        · exact absurd h hs
        · exact ⟨hx, hs⟩
    · rename_i h
      replace h : y ∉ seen := by simpa using h
      rw [List.mem_cons, ih]
      constructor
      · rintro (rfl | ⟨hx, hs⟩)
        · exact ⟨List.mem_cons_self x ys, h⟩
        · refine ⟨List.mem_cons_of_mem y hx, fun hc => hs (List.mem_cons_of_mem y hc)⟩
      · rintro ⟨hx, hs⟩
        by_cases hxy : x = y
        · exact Or.inl hxy
        · rcases List.mem_cons.mp hx with h1 | h1
          · exact absurd h1 hxy
          · refine Or.inr ⟨h1, fun hc => ?_⟩
            rcases List.mem_cons.mp hc with h2 | h2
            · exact hxy h2
            · exact hs h2

theorem keepFirsts_nodup {α : Type} [DecidableEq α] (seen l : List α) :
    (keepFirsts seen l).Nodup := by
  induction l generalizing seen with
  | nil => simp [keepFirsts]
  | cons y ys ih =>
    simp only [keepFirsts]
    split
    · exact ih seen
    · refine List.Nodup.cons (fun hmem => ?_) (ih (y :: seen))
      rw [mem_keepFirsts] at hmem
      exact hmem.2 (List.mem_cons_self y seen)

theorem keepFirsts_eq_fold {α : Type} [DecidableEq α] (l : List α) :
    ∀ (seen acc : List α), (∀ x, seen.contains x = acc.contains x) →
      acc ++ keepFirsts seen l =
        l.foldl (fun a x => if a.contains x then a else a ++ [x]) acc := by
  induction l with
  | nil => intro seen acc _; simp [keepFirsts]
  | cons y ys ih =>
    intro seen acc h
    simp only [keepFirsts, List.foldl]
    rw [← h y]
    split
    · exact ih seen acc h
    · rw [show acc ++ y :: keepFirsts (y :: seen) ys
        = (acc ++ [y]) ++ keepFirsts (y :: seen) ys by simp]
      refine ih (y :: seen) (acc ++ [y]) (fun x => ?_)
      have hx : (x ∈ seen) ↔ (x ∈ acc) := by
        have := h x
        simpa using this
      simp [hx, Bool.or_comm]

theorem firstOccurrencesSpec_eq_keepFirsts {α : Type} [DecidableEq α] (l : List α) :
    firstOccurrencesSpec l = keepFirsts [] l := by
  have := keepFirsts_eq_fold l [] [] (fun x => rfl)
  simpa [firstOccurrencesSpec] using this.symm

theorem map_getD_set_zip (idx : ℕ) :
    ∀ (rows : List (List Value)) (vs : List Value),
      (∀ r ∈ rows, idx < r.length) → vs.length = rows.length →
      ((rows.zip vs).map (fun p => p.1.set idx p.2)).map
          (fun r => r.getD idx Value.vnull) = vs := by
  intro rows
  induction rows with
  | nil =>
    intro vs _ hlen
    have hv : vs = [] := by simpa using hlen
    subst hv
    rfl
  | cons r rs ih =>
    intro vs hrect hlen
    cases vs with
    | nil => simp at hlen
    | cons v vt =>
      simp only [List.zip_cons_cons, List.map_cons]
      have h1 : idx < r.length := hrect r (List.mem_cons_self r rs)
      have h2 : (r.set idx v).getD idx Value.vnull = v := by
        simp [List.getD_eq_getElem?_getD, List.getElem?_set_self', h1]
      rw [h2, ih vt (fun x hx => hrect x (List.mem_cons_of_mem r hx)) (by simpa using hlen)]

theorem map_getD_append_zip (w : ℕ) :
    ∀ (rows : List (List Value)) (vs : List Value),
      (∀ r ∈ rows, r.length = w) → vs.length = rows.length →
      ((rows.zip vs).map (fun p => p.1 ++ [p.2])).map
          (fun r => r.getD w Value.vnull) = vs := by
  intro rows
  induction rows with
  | nil =>
    intro vs _ hlen
    have hv : vs = [] := by simpa using hlen
    subst hv
    rfl
  | cons r rs ih =>
    intro vs hrect hlen
    cases vs with
    | nil => simp at hlen
    | cons v vt =>
      simp only [List.zip_cons_cons, List.map_cons]
      have h1 : r.length = w := hrect r (List.mem_cons_self r rs)
      have h2 : (r ++ [v]).getD w Value.vnull = v := by
        subst h1
        simp [List.getD_eq_getElem?_getD, List.getElem?_append_right]
      rw [h2, ih vt (fun x hx => hrect x (List.mem_cons_of_mem r hx)) (by simpa using hlen)]

/-- Writing a column and reading it back yields the written cells, on a
rectangular table with a full-height cell list. -/
theorem Table.column_setCol (t : Table) (c : String) (vs : List Value)
    (hrect : ∀ r ∈ t.rows, r.length = t.cols.length)
    (hlen : vs.length = t.rows.length) :
    (t.setCol c vs).column c = vs := by
  unfold Table.setCol Table.column
  split
  · rename_i hc
    have hmem : c ∈ t.cols := by simpa using hc
    have hidx : t.cols.indexOf c < t.cols.length := List.indexOf_lt_length.mpr hmem
    exact map_getD_set_zip _ t.rows vs (fun r hr => by rw [hrect r hr]; exact hidx) hlen
  · rename_i hc
    have hmem : c ∉ t.cols := by simpa using hc
    have hidx : (t.cols ++ [c]).indexOf c = t.cols.length := by
      rw [List.indexOf_append_of_not_mem hmem]
      simp
    dsimp only
    rw [hidx]
    exact map_getD_append_zip _ t.rows vs hrect hlen

theorem foldl_min_le (xs : List ℚ) : ∀ (a x : ℚ), x ∈ a :: xs → xs.foldl min a ≤ x := by
  induction xs with
  | nil =>
    intro a x hx
    simp at hx
    simp [hx]
  | cons y ys ih =>
    intro a x hx
    simp only [List.foldl_cons]
    rcases List.mem_cons.mp hx with rfl | hx'
    · calc ys.foldl min (min x y) ≤ min x y := ih _ _ (List.mem_cons_self _ _)
        _ ≤ x := min_le_left x y
    · rcases List.mem_cons.mp hx' with rfl | hx2
      · calc ys.foldl min (min a x) ≤ min a x := ih _ _ (List.mem_cons_self _ _)
          _ ≤ x := min_le_right a x
      · exact ih (min a y) x (List.mem_cons_of_mem _ hx2)

theorem foldl_le_max (xs : List ℚ) : ∀ (a x : ℚ), x ∈ a :: xs → x ≤ xs.foldl max a := by
  induction xs with
  | nil =>
    intro a x hx
    simp at hx
    simp [hx]
  | cons y ys ih =>
    intro a x hx
    simp only [List.foldl_cons]
    rcases List.mem_cons.mp hx with rfl | hx'
    · calc x ≤ max x y := le_max_left x y
        _ ≤ ys.foldl max (max x y) := ih _ _ (List.mem_cons_self _ _)
    · rcases List.mem_cons.mp hx' with rfl | hx2
      · calc x ≤ max a x := le_max_right a x
          _ ≤ ys.foldl max (max a x) := ih _ _ (List.mem_cons_self _ _)
      · exact ih (max a y) x (List.mem_cons_of_mem _ hx2)

theorem qmin_le (l : List ℚ) (x : ℚ) (hx : x ∈ l) : qmin l ≤ x := by
  cases l with
  | nil => simp at hx
  | cons a xs => exact foldl_min_le xs a x hx

theorem le_qmax (l : List ℚ) (x : ℚ) (hx : x ∈ l) : x ≤ qmax l := by
  cases l with
  | nil => simp at hx
  | cons a xs => exact foldl_le_max xs a x hx

theorem foldl_min_mem (xs : List ℚ) : ∀ a : ℚ, xs.foldl min a ∈ a :: xs := by
  induction xs with
  | nil => intro a; simp
  | cons y ys ih =>
    intro a
    simp only [List.foldl_cons]
    rcases min_choice a y with h | h
    · rw [h]
      rcases List.mem_cons.mp (ih a) with h2 | h2 <;> simp [h2]
    · rw [h]
      rcases List.mem_cons.mp (ih y) with h2 | h2 <;> simp [h2]

theorem foldl_max_mem (xs : List ℚ) : ∀ a : ℚ, xs.foldl max a ∈ a :: xs := by
  induction xs with
  | nil => intro a; simp
  | cons y ys ih =>
    intro a
    simp only [List.foldl_cons]
    rcases max_choice a y with h | h
    · rw [h]
      rcases List.mem_cons.mp (ih a) with h2 | h2 <;> simp [h2]
    · rw [h]
      rcases List.mem_cons.mp (ih y) with h2 | h2 <;> simp [h2]

theorem qmin_mem (l : List ℚ) (hne : l ≠ []) : qmin l ∈ l := by
  cases l with
  | nil => exact absurd rfl hne
  | cons a xs => exact foldl_min_mem xs a

theorem qmax_mem (l : List ℚ) (hne : l ≠ []) : qmax l ∈ l := by
  cases l with
  | nil => exact absurd rfl hne
  | cons a xs => exact foldl_max_mem xs a

theorem sum_const_list (l : List ℚ) (c : ℚ) (h : ∀ x ∈ l, x = c) :
    l.sum = l.length * c := by
  induction l with
  | nil => simp
  | cons x xs ih =>
    simp only [List.sum_cons, List.length_cons]
    rw [h x (List.mem_cons_self x xs), ih (fun y hy => h y (List.mem_cons_of_mem x hy))]
    push_cast
    ring

theorem qmean_const (l : List ℚ) (c : ℚ) (hne : l ≠ []) (h : ∀ x ∈ l, x = c) :
    qmean l = c := by
  unfold qmean
  rw [sum_const_list l c h]
  have hlen : (l.length : ℚ) ≠ 0 := by
    have : l.length ≠ 0 := by
      intro h0
      exact hne (List.length_eq_zero.mp h0)
    exact_mod_cast this
  field_simp

theorem sampleVar_const (l : List ℚ) (c : ℚ) (h : ∀ x ∈ l, x = c) :
    sampleVar l = 0 := by
  cases hl : l with
  | nil => simp [sampleVar, qmean]
  | cons a xs =>
    unfold sampleVar
    rw [← hl]
    have hne : l ≠ [] := by rw [hl]; exact List.cons_ne_nil a xs
    have hz : ∀ y ∈ l.map (fun x => (x - qmean l) ^ 2), y = 0 := by
      intro y hy
      rcases List.mem_map.mp hy with ⟨x, hx, rfl⟩
      rw [h x hx, qmean_const l c hne h]
      ring
    rw [List.sum_eq_zero hz, zero_div]

/-- The details dictionary of a scaling success envelope. -/
def EngResult.scaleDetails : EngResult → Details
  | .okScale _ _ _ d _ => d
  | _ => []

/-- A fixed trivial oracle used by concrete counterexamples and witnesses;
the inputs they exercise never reach a square root of a nonzero variance or
a date parse. -/
def oracle0 : Oracle := { sq := fun _ => 0, pdate := fun _ => none }

/-- An operation outcome that leaves the engine untouched whenever it is an
error envelope. -/
def ErrUnch (e : Engine) (p : EngResult × Engine) : Prop :=
  p.1.isError = true → p.2 = e

theorem remove_duplicates_error_unchanged (e : Engine) (b : Bool) :
    ErrUnch e (remove_duplicates e b) := by
  unfold remove_duplicates
  (repeat' split) <;> simp [ErrUnch, EngResult.isError]

theorem handle_missing_values_error_unchanged (e : Engine) (column method : String)
    (cv : Option Value) : ErrUnch e (handle_missing_values e column method cv) := by
  unfold handle_missing_values
  lift_lets
  intros
  repeat' split
  all_goals simp [ErrUnch, EngResult.isError]

theorem convert_types_error_unchanged (O : Oracle) (e : Engine) (column target_type : String) :
    ErrUnch e (convert_types O e column target_type) := by
  unfold convert_types
  lift_lets
  intros
  repeat' split
  all_goals simp [ErrUnch, EngResult.isError]

theorem clean_text_error_unchanged (e : Engine) (column : String) (operations : List String) :
    ErrUnch e (clean_text e column operations) := by
  unfold clean_text
  lift_lets
  intros
  repeat' split
  all_goals simp [ErrUnch, EngResult.isError]

theorem scale_column_error_unchanged (O : Oracle) (e : Engine) (column method : String)
    (p : Bool) : ErrUnch e (scale_column O e column method p) := by
  unfold scale_column
  lift_lets
  intros
  repeat' split
  all_goals simp [ErrUnch, EngResult.isError]

theorem detect_outliers_error_unchanged (O : Oracle) (e : Engine) (column method : String)
    (threshold : ℚ) : ErrUnch e (detect_outliers O e column method threshold) := by
  unfold detect_outliers
  lift_lets
  intros
  repeat' split
  all_goals simp [ErrUnch, EngResult.isError]

theorem handle_outliers_error_unchanged (O : Oracle) (e : Engine)
    (column method detection_method : String) (threshold : ℚ) :
    ErrUnch e (handle_outliers O e column method detection_method threshold) := by
  unfold handle_outliers
  lift_lets
  intros
  repeat' split
  all_goals simp [ErrUnch, EngResult.isError]

theorem add_derived_column_error_unchanged (e : Engine) (operation : String)
    (columns : List String) (n : Option String) :
    ErrUnch e (add_derived_column e operation columns n) := by
  unfold add_derived_column
  lift_lets
  intros
  repeat' split
  all_goals simp [ErrUnch, EngResult.isError]

theorem handle_inconsistent_data_error_unchanged (e : Engine) (column : String)
    (mapping : Option (List (String × Value))) (cs : Bool) :
    ErrUnch e (handle_inconsistent_data e column mapping cs) := by
  unfold handle_inconsistent_data
  lift_lets
  intros
  repeat' split
  all_goals simp [ErrUnch, EngResult.isError]

theorem reset_changes_error_unchanged (e : Engine) : ErrUnch e (reset_changes e) := by
  unfold reset_changes
  simp [ErrUnch, EngResult.isError]

/-- An operation outcome whose resulting engine still carries the original
snapshot of the pre-call engine. -/
def OrigUnch (e : Engine) (p : EngResult × Engine) : Prop :=
  p.2.original_data = e.original_data

theorem remove_duplicates_orig (e : Engine) (b : Bool) :
    OrigUnch e (remove_duplicates e b) := by
  unfold remove_duplicates
  repeat' split
  all_goals rfl

theorem handle_missing_values_orig (e : Engine) (column method : String)
    (cv : Option Value) : OrigUnch e (handle_missing_values e column method cv) := by
  unfold handle_missing_values
  lift_lets
  intros
  repeat' split
  all_goals rfl

theorem convert_types_orig (O : Oracle) (e : Engine) (column target_type : String) :
    OrigUnch e (convert_types O e column target_type) := by
  unfold convert_types
  lift_lets
  intros
  repeat' split
  all_goals rfl

theorem clean_text_orig (e : Engine) (column : String) (operations : List String) :
    OrigUnch e (clean_text e column operations) := by
  unfold clean_text
  lift_lets
  intros
  repeat' split
  all_goals rfl

theorem scale_column_orig (O : Oracle) (e : Engine) (column method : String) (p : Bool) :
    OrigUnch e (scale_column O e column method p) := by
  unfold scale_column
  lift_lets
  intros
  repeat' split
  all_goals rfl

theorem detect_outliers_orig (O : Oracle) (e : Engine) (column method : String)
    (threshold : ℚ) : OrigUnch e (detect_outliers O e column method threshold) := by
  unfold detect_outliers
  repeat' split
  all_goals rfl

theorem handle_outliers_orig (O : Oracle) (e : Engine)
    (column method detection_method : String) (threshold : ℚ) :
    OrigUnch e (handle_outliers O e column method detection_method threshold) := by
  unfold handle_outliers
  lift_lets
  intros
  repeat' split
  all_goals rfl

theorem add_derived_column_orig (e : Engine) (operation : String)
    (columns : List String) (n : Option String) :
    OrigUnch e (add_derived_column e operation columns n) := by
  unfold add_derived_column
  lift_lets
  intros
  repeat' split
  all_goals rfl

theorem handle_inconsistent_data_orig (e : Engine) (column : String)
    (mapping : Option (List (String × Value))) (cs : Bool) :
    OrigUnch e (handle_inconsistent_data e column mapping cs) := by
  unfold handle_inconsistent_data
  lift_lets
  intros
  repeat' split
  all_goals rfl

theorem reset_changes_orig (e : Engine) : OrigUnch e (reset_changes e) := rfl

theorem applyOp_orig (O : Oracle) (op : Op) (e : Engine) :
    OrigUnch e (applyOp O op e) := by
  cases op with
  | removeDuplicates b => exact remove_duplicates_orig e b
  | handleMissingValues c m cv => exact handle_missing_values_orig e c m cv
  | convertTypes c t => exact convert_types_orig O e c t
  | cleanText c ops => exact clean_text_orig e c ops
  | scaleColumn c m p => exact scale_column_orig O e c m p
  | detectOutliers c m th => exact detect_outliers_orig O e c m th
  | handleOutliers c m dm th => exact handle_outliers_orig O e c m dm th
  | addDerivedColumn o cs n => exact add_derived_column_orig e o cs n
  | handleInconsistentData c mp cs => exact handle_inconsistent_data_orig e c mp cs
  | resetChanges => exact reset_changes_orig e

theorem runOps_orig (O : Oracle) (ops : List Op) :
    ∀ e : Engine, (runOps O e ops).original_data = e.original_data := by
  induction ops with
  | nil => intro e; rfl
  | cons op rest ih =>
    intro e
    rw [runOps, ih]
    exact applyOp_orig O op e

theorem applyOp_error_unchanged (O : Oracle) (op : Op) (e : Engine) :
    ErrUnch e (applyOp O op e) := by
  cases op with
  | removeDuplicates b => exact remove_duplicates_error_unchanged e b
  | handleMissingValues c m cv => exact handle_missing_values_error_unchanged e c m cv
  | convertTypes c t => exact convert_types_error_unchanged O e c t
  | cleanText c ops => exact clean_text_error_unchanged e c ops
  | scaleColumn c m p => exact scale_column_error_unchanged O e c m p
  | detectOutliers c m th => exact detect_outliers_error_unchanged O e c m th
  | handleOutliers c m dm th => exact handle_outliers_error_unchanged O e c m dm th
  | addDerivedColumn o cs n => exact add_derived_column_error_unchanged e o cs n
  | handleInconsistentData c mp cs => exact handle_inconsistent_data_error_unchanged e c mp cs
  | resetChanges => exact reset_changes_error_unchanged e

theorem add_derived_column_error_of_missing (e : Engine) (operation : String)
    (columns : List String) (nn : Option String) (c : String)
    (hc : c ∈ columns) (h : e.df.hasCol c = false) :
    (add_derived_column e operation columns nn).1.isError = true
    ∧ (add_derived_column e operation columns nn).2 = e := by
  by_cases he : e.df.isEmpty = true
  · constructor <;> simp [add_derived_column, EngResult.isError, he]
  · have hfind : (columns.find? (fun x => !(e.df.hasCol x))).isSome := by
      rw [List.find?_isSome]
      exact ⟨c, hc, by simp [h]⟩
    rcases Option.isSome_iff_exists.mp hfind with ⟨c', hcf⟩
    have hne : columns.isEmpty = false := by
      cases columns
      · simp at hc
      · rfl
    constructor <;> simp [add_derived_column, EngResult.isError, he, hne, hcf]

/-- C1 counterexample: `remove_duplicates` called on the empty table returns
the success envelope with data `[]` and removed count 0, not an error — the
claim that every operation errors on a zero-row table is false at this
input. -/
theorem C1_counterexample :
    (remove_duplicates (Engine.init []) true).1 = EngResult.okDedup [] 0 ∧
      (remove_duplicates (Engine.init []) true).1.isError = false := by
  exact ⟨rfl, rfl⟩

/-- C1 (amended): on an empty working table every operation except
`remove_duplicates` and `reset_changes` returns an error envelope without
mutating the engine, while `remove_duplicates` returns the success envelope
with data `[]` and removed count 0 and `reset_changes` succeeds; whenever a
referenced column is absent, every column-referencing operation returns an
error envelope without mutating the engine (the column-not-found message
when the table is nonempty, the empty-table message otherwise). -/
theorem C1_amended (O : Oracle) (e : Engine)
    (column method target detection operation : String) (cv : Option Value)
    (ops : List String) (columns : List String) (nn : Option String)
    (mp : Option (List (String × Value))) (cs b p : Bool) (th : ℚ) :
    (e.df.isEmpty = true →
      (handle_missing_values e column method cv).1.isError = true
      ∧ (handle_missing_values e column method cv).2 = e
      ∧ (convert_types O e column target).1.isError = true
      ∧ (convert_types O e column target).2 = e
      ∧ (clean_text e column ops).1.isError = true
      ∧ (clean_text e column ops).2 = e
      ∧ (scale_column O e column method p).1.isError = true
      ∧ (scale_column O e column method p).2 = e
      ∧ (detect_outliers O e column detection th).1.isError = true
      ∧ (detect_outliers O e column detection th).2 = e
      ∧ (handle_outliers O e column method detection th).1.isError = true
      ∧ (handle_outliers O e column method detection th).2 = e
      ∧ (add_derived_column e operation columns nn).1.isError = true
      ∧ (add_derived_column e operation columns nn).2 = e
      ∧ (handle_inconsistent_data e column mp cs).1.isError = true
      ∧ (handle_inconsistent_data e column mp cs).2 = e
      ∧ remove_duplicates e b = (EngResult.okDedup [] 0, e)
      ∧ (reset_changes e).1.isError = false)
    ∧ (e.df.hasCol column = false →
      (handle_missing_values e column method cv).1.isError = true
      ∧ (handle_missing_values e column method cv).2 = e
      ∧ (convert_types O e column target).1.isError = true
      ∧ (convert_types O e column target).2 = e
      ∧ (clean_text e column ops).1.isError = true
      ∧ (clean_text e column ops).2 = e
      ∧ (scale_column O e column method p).1.isError = true
      ∧ (scale_column O e column method p).2 = e
      ∧ (detect_outliers O e column detection th).1.isError = true
      ∧ (detect_outliers O e column detection th).2 = e
      ∧ (handle_outliers O e column method detection th).1.isError = true
      ∧ (handle_outliers O e column method detection th).2 = e
      ∧ (handle_inconsistent_data e column mp cs).1.isError = true
      ∧ (handle_inconsistent_data e column mp cs).2 = e
      ∧ (column ∈ columns →
          (add_derived_column e operation columns nn).1.isError = true
          ∧ (add_derived_column e operation columns nn).2 = e))
    ∧ (e.df.isEmpty = false → e.df.hasCol column = false →
      (handle_missing_values e column method cv).1
        = EngResult.error ("Column " ++ column ++ " not found.")) := by
  refine ⟨fun h => ?_, fun h => ?_, fun h1 h2 => ?_⟩
  · refine ⟨?_, ?_, ?_, ?_, ?_, ?_, ?_, ?_, ?_, ?_, ?_, ?_, ?_, ?_, ?_, ?_, ?_, ?_⟩ <;>
      simp [handle_missing_values, convert_types, clean_text, scale_column,
        detect_outliers, detect_outliers_core, handle_outliers,
        add_derived_column, handle_inconsistent_data, remove_duplicates,
        reset_changes, EngResult.isError, h]
  · have hadd : column ∈ columns →
        (add_derived_column e operation columns nn).1.isError = true
        ∧ (add_derived_column e operation columns nn).2 = e :=
      fun hc => add_derived_column_error_of_missing e operation columns nn column hc h
    by_cases he : e.df.isEmpty = true
    · refine ⟨?_, ?_, ?_, ?_, ?_, ?_, ?_, ?_, ?_, ?_, ?_, ?_, ?_, ?_, hadd⟩ <;>
        simp [handle_missing_values, convert_types, clean_text, scale_column,
          detect_outliers, detect_outliers_core, handle_outliers,
          handle_inconsistent_data, EngResult.isError, he]
    · have he' : e.df.isEmpty = false := by
        cases hx : e.df.isEmpty
        · rfl
        · exact absurd hx he
      refine ⟨?_, ?_, ?_, ?_, ?_, ?_, ?_, ?_, ?_, ?_, ?_, ?_, ?_, ?_, hadd⟩ <;>
        simp [handle_missing_values, convert_types, clean_text, scale_column,
          detect_outliers, detect_outliers_core, handle_outliers,
          handle_inconsistent_data, EngResult.isError, he', h]
  · simp [handle_missing_values, h1, h2]

/-- C1 amended witness: the empty-table clause of the amended claim
discharged at the empty engine. -/
theorem C1_amended_witness :
    (Engine.init ([] : List (List (String × Value)))).df.isEmpty = true
    ∧ (handle_missing_values (Engine.init []) "a" "mean" none).1.isError = true := by
  have h := (C1_amended oracle0 (Engine.init []) "a" "mean" "text" "iqr" "sum" none
    [] [] none none false true false 3).1 (by decide)
  exact ⟨by decide, h.1⟩

/-- C2: for every operation and pre-call engine, an error envelope implies
the working table afterwards equals the pre-call table exactly; in
particular calling any operation with a nonexistent column leaves the
working table equal to its pre-call state. -/
theorem C2_error_leaves_working_unchanged (O : Oracle) (op : Op) (e : Engine)
    (h : (applyOp O op e).1.isError = true) : (applyOp O op e).2.df = e.df := by
  rw [applyOp_error_unchanged O op e h]

/-- C2 witness: clean_text called with a nonexistent column on a one-row
table errors and leaves the table unchanged. -/
theorem C2_error_leaves_working_unchanged_witness :
    (applyOp oracle0 (Op.cleanText "x" []) ⟨[], ⟨["a"], [[Value.vnum 1]]⟩⟩).1.isError = true
    ∧ (applyOp oracle0 (Op.cleanText "x" []) ⟨[], ⟨["a"], [[Value.vnum 1]]⟩⟩).2.df
        = Table.mk ["a"] [[Value.vnum 1]] :=
  ⟨by decide, C2_error_leaves_working_unchanged oracle0 (Op.cleanText "x" [])
    ⟨[], ⟨["a"], [[Value.vnum 1]]⟩⟩ (by decide)⟩

/-- C3: on a nonempty table remove_duplicates succeeds, the resulting rows
are exactly the first occurrences of each distinct row in original relative
order (hence contain no two equal rows), and the envelope reports the
resulting records with removed count equal to the pre-call row count minus
the resulting row count. -/
theorem C3_remove_duplicates_dedups (e : Engine) (b : Bool)
    (h : e.df.isEmpty = false) :
    (remove_duplicates e b).1.isError = false
    ∧ (remove_duplicates e b).2.df.rows = firstOccurrencesSpec e.df.rows
    ∧ (remove_duplicates e b).2.df.rows.Nodup
    ∧ List.Sublist (remove_duplicates e b).2.df.rows e.df.rows
    ∧ (remove_duplicates e b).1
        = EngResult.okDedup ((remove_duplicates e b).2.df.records)
            (e.df.rows.length - (remove_duplicates e b).2.df.rows.length)
    ∧ (remove_duplicates e b).2.df.cols = e.df.cols := by
  have hrd : remove_duplicates e b
      = (EngResult.okDedup (Table.mk e.df.cols (keepFirsts [] e.df.rows)).records
          (e.df.rows.length - (keepFirsts [] e.df.rows).length),
         { e with df := Table.mk e.df.cols (keepFirsts [] e.df.rows) }) := by
    unfold remove_duplicates
    simp [h]
  rw [hrd]
  exact ⟨rfl, (firstOccurrencesSpec_eq_keepFirsts _).symm, keepFirsts_nodup _ _,
    keepFirsts_sublist _ _, rfl, rfl⟩

/-- Concrete three-row engine with one duplicated row, for the C3 witness. -/
def engC3 : Engine :=
  ⟨[], ⟨["id", "name"],
    [[Value.vnum 1, Value.vstr "John"], [Value.vnum 2, Value.vstr "Jane"],
      [Value.vnum 1, Value.vstr "John"]]⟩⟩

/-- C3 witness: the duplicate-removal properties discharged at a concrete
three-row table with one duplicate. -/
theorem C3_remove_duplicates_dedups_witness :
    engC3.df.isEmpty = false
    ∧ ((remove_duplicates engC3 true).1.isError = false
      ∧ (remove_duplicates engC3 true).2.df.rows = firstOccurrencesSpec engC3.df.rows
      ∧ (remove_duplicates engC3 true).2.df.rows.Nodup
      ∧ List.Sublist (remove_duplicates engC3 true).2.df.rows engC3.df.rows
      ∧ (remove_duplicates engC3 true).1
          = EngResult.okDedup ((remove_duplicates engC3 true).2.df.records)
              (engC3.df.rows.length - (remove_duplicates engC3 true).2.df.rows.length)
      ∧ (remove_duplicates engC3 true).2.df.cols = engC3.df.cols) :=
  ⟨by decide, C3_remove_duplicates_dedups engC3 true (by decide)⟩

/-- C5 counterexample: the single-cell column `[5]` has all its coercible
values equal, yet standardize succeeds with a null cell (sample std with
`ddof=1` of one observation is NaN), not with 0.0 — and the reported
`std_dev` is NaN, not 0.  (This path never consults the square-root
oracle.) -/
theorem C5_counterexample :
    (scale_column oracle0 ⟨[], ⟨["a"], [[Value.vnum 5]]⟩⟩ "a" "standardize" false).1.isError
      = false
    ∧ (scale_column oracle0 ⟨[], ⟨["a"], [[Value.vnum 5]]⟩⟩ "a" "standardize" false).2.df.column "a"
        = [Value.vnull]
    ∧ ¬ (scale_column oracle0 ⟨[], ⟨["a"], [[Value.vnum 5]]⟩⟩ "a" "standardize" false).2.df.column "a"
        = [Value.vnum 0]
    ∧ ((scale_column oracle0 ⟨[], ⟨["a"], [[Value.vnum 5]]⟩⟩ "a" "standardize" false).1.scaleDetails).lookup "std_dev"
        = some none := by
  refine ⟨by decide, by decide, by decide, by decide⟩

/-- C5 (amended): with at least one coercible cell, scaling succeeds in
every case below and non-coercible cells stay null.  If all coercible
values are equal then normalize maps every coercible cell to 0.0; if
moreover there are at least two of them the sample std is 0 and standardize
also maps every coercible cell to 0.0, reporting `std_dev` 0; with exactly
one coercible value the sample std is NaN and standardize nulls the whole
column, reporting `std_dev` NaN.  Otherwise normalize maps coercible cells
to `(x - min)/(max - min)`, which lies in `[0, 1]`, and when the std is
nonzero standardize maps them to the z-score, both reporting their
parameters. -/
theorem C5_amended (O : Oracle) (e : Engine) (column : String)
    (hsq : O.sq 0 = 0)
    (hne : e.df.isEmpty = false) (hcol : e.df.hasCol column = true)
    (hval : (e.df.column column).filterMap Value.coerceNum ≠ [])
    (hrect : ∀ r ∈ e.df.rows, r.length = e.df.cols.length) :
    ((∀ x ∈ (e.df.column column).filterMap Value.coerceNum,
        ∀ y ∈ (e.df.column column).filterMap Value.coerceNum, x = y) →
      (scale_column O e column "normalize" false).1.isError = false
      ∧ (scale_column O e column "normalize" false).2.df.column column
          = scaledToValues ((e.df.column column).map Value.coerceNum) (fun _ => 0)
      ∧ (scale_column O e column "normalize" false).1.scaleDetails
          = [("min", some (qmin ((e.df.column column).filterMap Value.coerceNum))),
             ("max", some (qmax ((e.df.column column).filterMap Value.coerceNum)))])
    ∧ ((∀ x ∈ (e.df.column column).filterMap Value.coerceNum,
        ∀ y ∈ (e.df.column column).filterMap Value.coerceNum, x = y) →
      2 ≤ ((e.df.column column).filterMap Value.coerceNum).length →
      (scale_column O e column "standardize" false).1.isError = false
      ∧ (scale_column O e column "standardize" false).2.df.column column
          = scaledToValues ((e.df.column column).map Value.coerceNum) (fun _ => 0)
      ∧ (scale_column O e column "standardize" false).1.scaleDetails
          = [("mean", some (qmean ((e.df.column column).filterMap Value.coerceNum))),
             ("std_dev", some 0)])
    ∧ (((e.df.column column).filterMap Value.coerceNum).length = 1 →
      (scale_column O e column "standardize" false).1.isError = false
      ∧ (scale_column O e column "standardize" false).2.df.column column
          = ((e.df.column column).map Value.coerceNum).map (fun _ => Value.vnull)
      ∧ (scale_column O e column "standardize" false).1.scaleDetails
          = [("mean", some (qmean ((e.df.column column).filterMap Value.coerceNum))),
             ("std_dev", none)])
    ∧ (qmax ((e.df.column column).filterMap Value.coerceNum)
        - qmin ((e.df.column column).filterMap Value.coerceNum) ≠ 0 →
      (scale_column O e column "normalize" false).1.isError = false
      ∧ (scale_column O e column "normalize" false).2.df.column column
          = scaledToValues ((e.df.column column).map Value.coerceNum)
              (fun x => (x - qmin ((e.df.column column).filterMap Value.coerceNum))
                / (qmax ((e.df.column column).filterMap Value.coerceNum)
                  - qmin ((e.df.column column).filterMap Value.coerceNum)))
      ∧ (∀ x ∈ (e.df.column column).filterMap Value.coerceNum,
          0 ≤ (x - qmin ((e.df.column column).filterMap Value.coerceNum))
                / (qmax ((e.df.column column).filterMap Value.coerceNum)
                  - qmin ((e.df.column column).filterMap Value.coerceNum))
          ∧ (x - qmin ((e.df.column column).filterMap Value.coerceNum))
                / (qmax ((e.df.column column).filterMap Value.coerceNum)
                  - qmin ((e.df.column column).filterMap Value.coerceNum)) ≤ 1))
    ∧ (2 ≤ ((e.df.column column).filterMap Value.coerceNum).length →
      O.sq (sampleVar ((e.df.column column).filterMap Value.coerceNum)) ≠ 0 →
      (scale_column O e column "standardize" false).1.isError = false
      ∧ (scale_column O e column "standardize" false).2.df.column column
          = scaledToValues ((e.df.column column).map Value.coerceNum)
              (fun x => (x - qmean ((e.df.column column).filterMap Value.coerceNum))
                / O.sq (sampleVar ((e.df.column column).filterMap Value.coerceNum)))
      ∧ (scale_column O e column "standardize" false).1.scaleDetails
          = [("mean", some (qmean ((e.df.column column).filterMap Value.coerceNum))),
             ("std_dev",
              some (O.sq (sampleVar ((e.df.column column).filterMap Value.coerceNum))))]) := by
  have hnn : ¬ ∀ a ∈ e.df.column column, a.coerceNum = none := by
    intro hall
    exact hval (List.filterMap_eq_nil_iff.mpr hall)
  have hlenS : ∀ f : ℚ → ℚ,
      (scaledToValues ((e.df.column column).map Value.coerceNum) f).length
        = e.df.rows.length := by
    intro f
    simp [scaledToValues, Table.column]
  have hlenN : (((e.df.column column).map Value.coerceNum).map
      (fun _ => Value.vnull)).length = e.df.rows.length := by
    simp [Table.column]
  refine ⟨fun hconst => ?_, fun hconst h2 => ?_, fun hone => ?_, fun hr => ?_,
    fun h2 hsd => ?_⟩
  · have hr0 : qmax ((e.df.column column).filterMap Value.coerceNum)
        - qmin ((e.df.column column).filterMap Value.coerceNum) = 0 :=
      sub_eq_zero.mpr (hconst _ (qmax_mem _ hval) _ (qmin_mem _ hval))
    have heq : scale_column O e column "normalize" false
        = (EngResult.okScale
            (e.df.setCol column
              (scaledToValues ((e.df.column column).map Value.coerceNum) (fun _ => 0))).records
            column "normalize"
            [("min", some (qmin ((e.df.column column).filterMap Value.coerceNum))),
             ("max", some (qmax ((e.df.column column).filterMap Value.coerceNum)))]
            none,
          { e with df := (e.df.setCol column
              (scaledToValues ((e.df.column column).map Value.coerceNum) (fun _ => 0))) }) := by
      unfold scale_column
      simp [hne, hcol, hnn, hr0]
    rw [heq]
    exact ⟨rfl, Table.column_setCol e.df column _ hrect (hlenS _), rfl⟩
  · have hvar : sampleVar ((e.df.column column).filterMap Value.coerceNum) = 0 :=
      sampleVar_const _ (qmin ((e.df.column column).filterMap Value.coerceNum))
        (fun x hx => hconst _ hx _ (qmin_mem _ hval))
    have hn1 : ¬ ((e.df.column column).filterMap Value.coerceNum).length ≤ 1 := by omega
    have heq : scale_column O e column "standardize" false
        = (EngResult.okScale
            (e.df.setCol column
              (scaledToValues ((e.df.column column).map Value.coerceNum) (fun _ => 0))).records
            column "standardize"
            [("mean", some (qmean ((e.df.column column).filterMap Value.coerceNum))),
             ("std_dev",
              some (O.sq (sampleVar ((e.df.column column).filterMap Value.coerceNum))))]
            none,
          { e with df := (e.df.setCol column
              (scaledToValues ((e.df.column column).map Value.coerceNum) (fun _ => 0))) }) := by
      unfold scale_column
      simp [hne, hcol, hnn, hn1, hvar, hsq]
    rw [heq]
    refine ⟨rfl, Table.column_setCol e.df column _ hrect (hlenS _), ?_⟩
    simp [EngResult.scaleDetails, hvar, hsq]
  · have hn1 : ((e.df.column column).filterMap Value.coerceNum).length ≤ 1 := by omega
    have heq : scale_column O e column "standardize" false
        = (EngResult.okScale
            (e.df.setCol column
              (((e.df.column column).map Value.coerceNum).map (fun _ => Value.vnull))).records
            column "standardize"
            [("mean", some (qmean ((e.df.column column).filterMap Value.coerceNum))),
             ("std_dev", none)]
            none,
          { e with df := (e.df.setCol column
              (((e.df.column column).map Value.coerceNum).map (fun _ => Value.vnull))) }) := by
      unfold scale_column
      simp [hne, hcol, hnn, hn1]
    rw [heq]
    exact ⟨rfl, Table.column_setCol e.df column _ hrect hlenN, rfl⟩
  · have heq : scale_column O e column "normalize" false
        = (EngResult.okScale
            (e.df.setCol column
              (scaledToValues ((e.df.column column).map Value.coerceNum)
                (fun x => (x - qmin ((e.df.column column).filterMap Value.coerceNum))
                  / (qmax ((e.df.column column).filterMap Value.coerceNum)
                    - qmin ((e.df.column column).filterMap Value.coerceNum))))).records
            column "normalize"
            [("min", some (qmin ((e.df.column column).filterMap Value.coerceNum))),
             ("max", some (qmax ((e.df.column column).filterMap Value.coerceNum)))]
            none,
          { e with df := (e.df.setCol column
              (scaledToValues ((e.df.column column).map Value.coerceNum)
                (fun x => (x - qmin ((e.df.column column).filterMap Value.coerceNum))
                  / (qmax ((e.df.column column).filterMap Value.coerceNum)
                    - qmin ((e.df.column column).filterMap Value.coerceNum))))) }) := by
      unfold scale_column
      simp [hne, hcol, hnn, hr]
    rw [heq]
    refine ⟨rfl, Table.column_setCol e.df column _ hrect (hlenS _), fun x hx => ?_⟩
    have hxmin := qmin_le _ x hx
    have hxmax := le_qmax _ x hx
    have hminmax : qmin ((e.df.column column).filterMap Value.coerceNum)
        ≤ qmax ((e.df.column column).filterMap Value.coerceNum) :=
      le_trans (qmin_le _ _ (qmax_mem _ hval)) (le_refl _)
    have hpos : 0 < qmax ((e.df.column column).filterMap Value.coerceNum)
        - qmin ((e.df.column column).filterMap Value.coerceNum) := by
      rcases lt_or_eq_of_le (sub_nonneg.mpr hminmax) with h | h
      · exact h
      · exact absurd h.symm hr
    constructor
    · exact div_nonneg (sub_nonneg.mpr hxmin) (le_of_lt hpos)
    · rw [div_le_one hpos]
      linarith
  · have hn1 : ¬ ((e.df.column column).filterMap Value.coerceNum).length ≤ 1 := by omega
    have heq : scale_column O e column "standardize" false
        = (EngResult.okScale
            (e.df.setCol column
              (scaledToValues ((e.df.column column).map Value.coerceNum)
                (fun x => (x - qmean ((e.df.column column).filterMap Value.coerceNum))
                  / O.sq (sampleVar ((e.df.column column).filterMap Value.coerceNum))))).records
            column "standardize"
            [("mean", some (qmean ((e.df.column column).filterMap Value.coerceNum))),
             ("std_dev",
              some (O.sq (sampleVar ((e.df.column column).filterMap Value.coerceNum))))]
            none,
          { e with df := (e.df.setCol column
              (scaledToValues ((e.df.column column).map Value.coerceNum)
                (fun x => (x - qmean ((e.df.column column).filterMap Value.coerceNum))
                  / O.sq (sampleVar ((e.df.column column).filterMap Value.coerceNum))))) }) := by
      unfold scale_column
      simp [hne, hcol, hnn, hn1, hsd]
    rw [heq]
    exact ⟨rfl, Table.column_setCol e.df column _ hrect (hlenS _), rfl⟩

/-- Concrete two-row constant column engine for the C5 witness. -/
def engC5 : Engine := ⟨[], ⟨["a"], [[Value.vnum 5], [Value.vnum 5]]⟩⟩

/-- C5 amended witness: the zero-variance clauses discharged at the
constant column `[5, 5]`. -/
theorem C5_amended_witness :
    (engC5.df.isEmpty = false ∧ engC5.df.hasCol "a" = true
      ∧ (engC5.df.column "a").filterMap Value.coerceNum ≠ [])
    ∧ (scale_column oracle0 engC5 "a" "standardize" false).2.df.column "a"
        = scaledToValues ((engC5.df.column "a").map Value.coerceNum) (fun _ => 0)
    ∧ (scale_column oracle0 engC5 "a" "normalize" false).2.df.column "a"
        = scaledToValues ((engC5.df.column "a").map Value.coerceNum) (fun _ => 0) := by
  have h := C5_amended oracle0 engC5 "a" rfl (by decide) (by decide) (by decide) (by decide)
  exact ⟨⟨by decide, by decide, by decide⟩,
    (h.2.1 (by decide) (by decide)).2.1, (h.1 (by decide)).2.1⟩

/-- Concrete engine with columns a = [1, null], b = [2, null], used by the
C6 example and witness. -/
def engC6 : Engine := ⟨[], ⟨["a", "b"],
  [[Value.vnum 1, Value.vnum 2], [Value.vnull, Value.vnull]]⟩⟩

/-- C6: for the numeric derived operations the new column is the row-wise
aggregate of the coerced listed cells; a row in which every listed cell
coerces to null yields 0 under sum and 1 under product (the identities),
while mean and median leave it null; the example columns a = [1, null] and
b = [2, null] under sum produce the new column [3, 0]. -/
theorem C6_derived_identities (e : Engine) (columns : List String) (n : String)
    (hne : e.df.isEmpty = false)
    (hcols : ∀ c ∈ columns, e.df.hasCol c = true)
    (hcne : columns ≠ [])
    (hn : e.df.hasCol n = false)
    (hrect : ∀ r ∈ e.df.rows, r.length = e.df.cols.length) :
    (∀ operation ∈ (["sum", "mean", "median", "product"] : List String),
      (add_derived_column e operation columns (some n)).1.isError = false
      ∧ (add_derived_column e operation columns (some n)).2.df.column n
          = e.df.rows.map (derivedCell operation e.df.cols columns))
    ∧ (∀ r : List Value, (∀ v ∈ rowCells e.df.cols columns r, v.coerceNum = none) →
        derivedCell "sum" e.df.cols columns r = Value.vnum 0
        ∧ derivedCell "product" e.df.cols columns r = Value.vnum 1
        ∧ derivedCell "mean" e.df.cols columns r = Value.vnull
        ∧ derivedCell "median" e.df.cols columns r = Value.vnull)
    ∧ (add_derived_column engC6 "sum" ["a", "b"] (some "s")).2.df.column "s"
        = [Value.vnum 3, Value.vnum 0] := by
  have hex : (add_derived_column engC6 "sum" ["a", "b"] (some "s")).2.df.column "s"
      = [Value.vnum 3, Value.vnum 0] := by
    unfold engC6
    simp [add_derived_column, derivedCell, rowCells, Table.setCol, Table.column,
      Table.hasCol, Table.isEmpty, Value.coerceNum]
    norm_num
  have hfind : columns.find? (fun c => !(e.df.hasCol c)) = none := by
    rw [List.find?_eq_none]
    intro c hc
    simp [hcols c hc]
  have hce : columns.isEmpty = false := by
    cases columns
    · exact absurd rfl hcne
    · rfl
  have hlen : ∀ operation,
      (e.df.rows.map (derivedCell operation e.df.cols columns)).length
        = e.df.rows.length := by
    intro operation
    simp
  refine ⟨?_, ?_, hex⟩
  · intro operation hop
    simp only [List.mem_cons, List.not_mem_nil, or_false] at hop
    have heq : add_derived_column e operation columns (some n)
        = (EngResult.okDerived
            (e.df.setCol n (e.df.rows.map (derivedCell operation e.df.cols columns))).records
            operation columns n,
          { e with df := (e.df.setCol n
              (e.df.rows.map (derivedCell operation e.df.cols columns))) }) := by
      rcases hop with rfl | rfl | rfl | rfl
      · unfold add_derived_column
        simp [hne, hce, hfind, hn]
      · unfold add_derived_column
        simp [hne, hce, hfind, hn]
      · unfold add_derived_column
        simp [hne, hce, hfind, hn]
      · unfold add_derived_column
        simp [hne, hce, hfind, hn]
    rw [heq]
    exact ⟨rfl, Table.column_setCol e.df n _ hrect (hlen operation)⟩
  · intro r hr
    have hv : (rowCells e.df.cols columns r).map Value.coerceNum
        = (rowCells e.df.cols columns r).map (fun _ => none) :=
      List.map_congr_left (fun v hv => hr v hv)
    have hvalids : ((rowCells e.df.cols columns r).map Value.coerceNum).filterMap id
        = [] := by
      rw [hv]
      rw [List.filterMap_eq_nil_iff]
      intro a ha
      rcases List.mem_map.mp ha with ⟨x, _, rfl⟩
      rfl
    refine ⟨?_, ?_, ?_, ?_⟩ <;> simp [derivedCell, hvalids]

/-- C6 witness: the quantified clauses discharged at the concrete engine
with columns a = [1, null] and b = [2, null]. -/
theorem C6_derived_identities_witness :
    (engC6.df.isEmpty = false ∧ engC6.df.hasCol "s" = false)
    ∧ (add_derived_column engC6 "sum" ["a", "b"] (some "s")).1.isError = false
    ∧ (add_derived_column engC6 "sum" ["a", "b"] (some "s")).2.df.column "s"
        = engC6.df.rows.map (derivedCell "sum" engC6.df.cols ["a", "b"]) := by
  have h := C6_derived_identities engC6 ["a", "b"] "s" (by decide) (by decide)
    (by decide) (by decide) (by decide)
  exact ⟨⟨by decide, by decide⟩, (h.1 "sum" (by decide)).1, (h.1 "sum" (by decide)).2⟩

/-- The warning field of a conversion success envelope. -/
def EngResult.warningOf : EngResult → Option String
  | .okConvert _ _ _ _ w => w
  | _ => none

theorem mkWarning_isSome_iff (n : ℕ) : (mkWarning n).isSome ↔ 0 < n := by
  by_cases h : 0 < n <;> simp [mkWarning, h]

/-- Concrete engine with column c = ['TRUE', '0', 'yes', 'maybe'], used by
the C7 example and witness. -/
def engC7 : Engine := ⟨[], ⟨["c"],
  [[Value.vstr "TRUE"], [Value.vstr "0"], [Value.vstr "yes"], [Value.vstr "maybe"]]⟩⟩

/-- C7: boolean conversion maps each cell by case-insensitive lookup in the
fixed truth table (true/1/yes mapsto true, false/0/no mapsto false,
anything else mapsto null), carries a warning exactly when the null count
grew, and the example column ['TRUE', '0', 'yes', 'maybe'] becomes
[true, false, true, null] with a warning about 1 unconvertible value. -/
theorem C7_boolean_conversion (O : Oracle) (e : Engine) (column : String)
    (hne : e.df.isEmpty = false) (hcol : e.df.hasCol column = true)
    (hrect : ∀ r ∈ e.df.rows, r.length = e.df.cols.length) :
    (convert_types O e column "boolean").1.isError = false
    ∧ (convert_types O e column "boolean").2.df.column column
        = (e.df.column column).map convertBoolCell
    ∧ (∀ v : Value,
        ((strLower v.toStr = "true" ∨ strLower v.toStr = "1" ∨ strLower v.toStr = "yes") →
          convertBoolCell v = Value.vbool true)
        ∧ ((strLower v.toStr = "false" ∨ strLower v.toStr = "0" ∨ strLower v.toStr = "no") →
          convertBoolCell v = Value.vbool false)
        ∧ (¬ (strLower v.toStr = "true" ∨ strLower v.toStr = "1" ∨ strLower v.toStr = "yes"
            ∨ strLower v.toStr = "false" ∨ strLower v.toStr = "0" ∨ strLower v.toStr = "no") →
          convertBoolCell v = Value.vnull))
    ∧ (((convert_types O e column "boolean").1.warningOf).isSome
        ↔ countMissing ((e.df.column column).map convertBoolCell)
            > countMissing (e.df.column column))
    ∧ (convert_types oracle0 engC7 "c" "boolean").2.df.column "c"
        = [Value.vbool true, Value.vbool false, Value.vbool true, Value.vnull]
    ∧ (convert_types oracle0 engC7 "c" "boolean").1.warningOf
        = some "1 value(s) could not be converted and were set to null." := by
  have heq : convert_types O e column "boolean"
      = (EngResult.okConvert
          (e.df.setCol column ((e.df.column column).map convertBoolCell)).records
          column (dtypeStr (e.df.column column)) "boolean"
          (mkWarning (countMissing ((e.df.column column).map convertBoolCell)
            - countMissing (e.df.column column))),
        { e with df := (e.df.setCol column
            ((e.df.column column).map convertBoolCell)) }) := by
    unfold convert_types
    simp [hne, hcol]
  refine ⟨?_, ?_, ?_, ?_, by decide, by decide⟩
  · rw [heq]; rfl
  · rw [heq]
    exact Table.column_setCol e.df column _ hrect (by simp [Table.column])
  · intro v
    refine ⟨fun h => ?_, fun h => ?_, fun h => ?_⟩
    · rcases h with h | h | h <;> simp [convertBoolCell, h]
    · rcases h with h | h | h <;> simp [convertBoolCell, h]
    · push_neg at h
      obtain ⟨h1, h2, h3, h4, h5, h6⟩ := h
      simp [convertBoolCell, h1, h2, h3, h4, h5, h6]
  · rw [heq]
    show (mkWarning _).isSome ↔ _
    rw [mkWarning_isSome_iff]
    omega

/-- C7 witness: the conversion facts discharged at the example engine. -/
theorem C7_boolean_conversion_witness :
    (engC7.df.isEmpty = false ∧ engC7.df.hasCol "c" = true)
    ∧ (convert_types oracle0 engC7 "c" "boolean").1.isError = false
    ∧ (convert_types oracle0 engC7 "c" "boolean").2.df.column "c"
        = (engC7.df.column "c").map convertBoolCell := by
  have h := C7_boolean_conversion oracle0 engC7 "c" (by decide) (by decide) (by decide)
  exact ⟨⟨by decide, by decide⟩, h.1, h.2.1⟩

/-- C8 counterexample: in the column `['yes', null]` every non-null cell
matches the boolean-token vocabulary, yet no boolean conversion happens —
the null cell stringifies to `'nan'`, which is not a token, so the all-cells
check fails; the result keeps the string `'yes'` (and collapses the null
token back to null) instead of becoming `[true, null]`. -/
theorem C8_counterexample :
    (handle_inconsistent_data ⟨[], ⟨["a"], [[Value.vstr "yes"], [Value.vnull]]⟩⟩
        "a" none false).2.df.column "a"
      = [Value.vstr "yes", Value.vnull]
    ∧ ¬ (handle_inconsistent_data ⟨[], ⟨["a"], [[Value.vstr "yes"], [Value.vnull]]⟩⟩
        "a" none false).2.df.column "a"
      = [Value.vbool true, Value.vnull] := by
  exact ⟨by decide, by decide⟩

/-- C8 (amended): without a mapping, every cell is stringified and trimmed;
the whole column converts to boolean exactly when every cell of that
stringified column (nulls render as a null-token string and thus never
match) is a boolean token case-insensitively — in particular a column
containing a null is never converted; independently, cells whose trimmed
string form is case-insensitively a null token collapse to null, and
non-token cells stay as their trimmed strings. -/
theorem C8_amended (e : Engine) (column : String) (cs : Bool)
    (hne : e.df.isEmpty = false) (hcol : e.df.hasCol column = true)
    (hrect : ∀ r ∈ e.df.rows, r.length = e.df.cols.length) :
    (handle_inconsistent_data e column none cs).1.isError = false
    ∧ (((e.df.column column).map (fun v => strTrim v.toStr)).all
          (fun s => boolTokens.contains (strLower s)) = true →
        (handle_inconsistent_data e column none cs).2.df.column column
          = ((e.df.column column).map (fun v => strTrim v.toStr)).map
              (fun s => Value.vbool (truthyTokens.contains (strLower s))))
    ∧ (((e.df.column column).map (fun v => strTrim v.toStr)).all
          (fun s => boolTokens.contains (strLower s)) = false →
        (handle_inconsistent_data e column none cs).2.df.column column
          = ((e.df.column column).map (fun v => strTrim v.toStr)).map
              (fun s => if nullTokens.contains (strLower s) then Value.vnull
                else Value.vstr s))
    ∧ (Value.vnull ∈ e.df.column column →
        ((e.df.column column).map (fun v => strTrim v.toStr)).all
          (fun s => boolTokens.contains (strLower s)) = false) := by
  have hbool : ∀ b : Bool,
      (if nullTokens.contains (strLower (Value.vbool b).toStr) then Value.vnull
        else Value.vbool b) = Value.vbool b := by
    intro b
    cases b <;> rfl
  refine ⟨?_, fun hall => ?_, fun hall => ?_, fun hmem => ?_⟩
  · unfold handle_inconsistent_data
    simp [hne, hcol, EngResult.isError]
  · have hall' : ∀ a ∈ e.df.column column, strLower (strTrim a.toStr) ∈ boolTokens := by
      intro a ha
      have := List.all_eq_true.mp hall _ (List.mem_map.mpr ⟨a, ha, rfl⟩)
      simpa using this
    have heq : (handle_inconsistent_data e column none cs).2.df
        = e.df.setCol column
            ((((e.df.column column).map (fun v => strTrim v.toStr)).map
              (fun s => Value.vbool (truthyTokens.contains (strLower s)))).map
              (fun v => if nullTokens.contains (strLower v.toStr) then Value.vnull else v)) := by
      unfold handle_inconsistent_data
      simp [hne, hcol, hall']
      rw [if_pos hall', List.map_map]
    rw [heq]
    have hsimp :
        ((((e.df.column column).map (fun v => strTrim v.toStr)).map
            (fun s => Value.vbool (truthyTokens.contains (strLower s)))).map
            (fun v => if nullTokens.contains (strLower v.toStr) then Value.vnull else v))
        = (((e.df.column column).map (fun v => strTrim v.toStr)).map
            (fun s => Value.vbool (truthyTokens.contains (strLower s)))) := by
      rw [List.map_map]
      refine List.map_congr_left (fun s _ => ?_)
      exact hbool _
    rw [hsimp]
    exact Table.column_setCol e.df column _ hrect (by simp [Table.column])
  · have hall' : ¬ ∀ a ∈ e.df.column column, strLower (strTrim a.toStr) ∈ boolTokens := by
      intro hforall
      have hx : ((e.df.column column).map (fun v => strTrim v.toStr)).all
          (fun s => boolTokens.contains (strLower s)) = true := by
        rw [List.all_eq_true]
        intro s hs
        rcases List.mem_map.mp hs with ⟨a, ha, rfl⟩
        simpa using hforall a ha
      rw [hall] at hx
      exact Bool.noConfusion hx
    have heq : (handle_inconsistent_data e column none cs).2.df
        = e.df.setCol column
            ((((e.df.column column).map (fun v => strTrim v.toStr)).map Value.vstr).map
              (fun v => if nullTokens.contains (strLower v.toStr) then Value.vnull else v)) := by
      unfold handle_inconsistent_data
      simp [hne, hcol, hall']
    rw [heq]
    rw [List.map_map]
    have hsimp :
        (((e.df.column column).map (fun v => strTrim v.toStr)).map
            ((fun v => if nullTokens.contains (strLower v.toStr) then Value.vnull else v)
              ∘ Value.vstr))
        = (((e.df.column column).map (fun v => strTrim v.toStr)).map
            (fun s => if nullTokens.contains (strLower s) then Value.vnull
              else Value.vstr s)) := by
      refine List.map_congr_left (fun s _ => ?_)
      rfl
    rw [hsimp]
    exact Table.column_setCol e.df column _ hrect (by simp [Table.column])
  · have hnan : ("nan" : String) ∈ (e.df.column column).map (fun v => strTrim v.toStr) := by
      refine List.mem_map.mpr ⟨Value.vnull, hmem, ?_⟩
      rfl
    cases hx : ((e.df.column column).map (fun v => strTrim v.toStr)).all
        (fun s => boolTokens.contains (strLower s)) with
    | false => rfl
    | true =>
      have := List.all_eq_true.mp hx _ hnan
      simp [strLower, boolTokens] at this

/-- Concrete engine with column a = [' YES ', 'n'], used by the C8
witness. -/
def engC8 : Engine := ⟨[], ⟨["a"], [[Value.vstr " YES "], [Value.vstr "n"]]⟩⟩

/-- C8 amended witness: the conversion clause discharged at the all-token
column [' YES ', 'n'], which becomes [true, false]. -/
theorem C8_amended_witness :
    (engC8.df.isEmpty = false ∧ engC8.df.hasCol "a" = true)
    ∧ (handle_inconsistent_data engC8 "a" none false).2.df.column "a"
        = ((engC8.df.column "a").map (fun v => strTrim v.toStr)).map
            (fun s => Value.vbool (truthyTokens.contains (strLower s))) := by
  have h := C8_amended engC8 "a" false (by decide) (by decide) (by decide)
  exact ⟨⟨by decide, by decide⟩, h.2.1 (by decide)⟩

/-- C9 counterexample: a zero-row table that still carries column a — the
column exists and trivially has zero nulls, yet handle_missing_values
returns the empty-table error instead of the zero-missing success
envelope. -/
theorem C9_counterexample :
    (⟨[], ⟨["a"], []⟩⟩ : Engine).df.hasCol "a" = true
    ∧ countMissing ((⟨[], ⟨["a"], []⟩⟩ : Engine).df.column "a") = 0
    ∧ (handle_missing_values ⟨[], ⟨["a"], []⟩⟩ "a" "remove" none).1
        = EngResult.error "Cannot handle missing values on empty data."
    ∧ (handle_missing_values ⟨[], ⟨["a"], []⟩⟩ "a" "remove" none).1.isError = true := by
  exact ⟨by decide, by decide, by decide, by decide⟩

/-- C9 (amended): on a table with at least one row and one column, if the
referenced column exists and contains zero nulls, handle_missing_values
returns the zero-missing success envelope and leaves the engine unchanged,
for every method string including unrecognized ones — the method is
validated only when the column has at least one null. -/
theorem C9_amended (e : Engine) (column method : String) (cv : Option Value)
    (hne : e.df.isEmpty = false) (hcol : e.df.hasCol column = true)
    (hmiss : countMissing (e.df.column column) = 0) :
    handle_missing_values e column method cv
      = (EngResult.okMissing e.df.records 0 method
          (some ("No missing values found in column " ++ column ++ ".")), e) := by
  unfold handle_missing_values
  simp [hne, hcol, hmiss]

/-- Concrete one-row engine without nulls, for the C9 witness. -/
def engC9 : Engine := ⟨[], ⟨["a"], [[Value.vnum 1]]⟩⟩

/-- C9 amended witness: the zero-missing early return discharged at a
one-row table and an unrecognized method name. -/
theorem C9_amended_witness :
    (engC9.df.isEmpty = false ∧ engC9.df.hasCol "a" = true
      ∧ countMissing (engC9.df.column "a") = 0)
    ∧ handle_missing_values engC9 "a" "bogus" none
      = (EngResult.okMissing engC9.df.records 0 "bogus"
          (some ("No missing values found in column " ++ "a" ++ ".")), engC9) :=
  ⟨⟨by decide, by decide, by decide⟩,
    C9_amended engC9 "a" "bogus" none (by decide) (by decide) (by decide)⟩

/-- C10: handle_outliers with method clip, when detection flagged at least
one outlier, overwrites the entire target column with the per-cell numeric
coercion of the column clamped into the detection bounds — every cell,
including cells that were not flagged, is replaced by its coerced clamped
value, and cells that do not coerce become null. -/
theorem C10_clip_overwrites_column (O : Oracle) (e : Engine)
    (column detection_method : String) (threshold : ℚ) (info : DetectInfo)
    (hdet : detect_outliers_core O e.df column detection_method threshold
      = Except.ok info)
    (hcnt : info.outlierCount ≠ 0)
    (hrect : ∀ r ∈ e.df.rows, r.length = e.df.cols.length) :
    (handle_outliers O e column "clip" detection_method threshold).1.isError = false
    ∧ (handle_outliers O e column "clip" detection_method threshold).2.df.column column
        = ((e.df.column column).map Value.coerceNum).map
            (fun o =>
              match o with
              | some x => Value.vnum (min (max x
                  (if detection_method = "iqr" then detGet info.details "lower_bound"
                   else detGet info.details "mean"
                     - threshold * detGet info.details "std_dev"))
                  (if detection_method = "iqr" then detGet info.details "upper_bound"
                   else detGet info.details "mean"
                     + threshold * detGet info.details "std_dev"))
              | none => Value.vnull) := by
  have heq : handle_outliers O e column "clip" detection_method threshold
      = (EngResult.okOutliers
          (e.df.setCol column
            (((e.df.column column).map Value.coerceNum).map
              (fun o =>
                match o with
                | some x => Value.vnum (min (max x
                    (if detection_method = "iqr" then detGet info.details "lower_bound"
                     else detGet info.details "mean"
                       - threshold * detGet info.details "std_dev"))
                    (if detection_method = "iqr" then detGet info.details "upper_bound"
                     else detGet info.details "mean"
                       + threshold * detGet info.details "std_dev"))
                | none => Value.vnull))).records
          column "clip" info.outlierCount (some detection_method) info.details none,
        { e with df := (e.df.setCol column
            (((e.df.column column).map Value.coerceNum).map
              (fun o =>
                match o with
                | some x => Value.vnum (min (max x
                    (if detection_method = "iqr" then detGet info.details "lower_bound"
                     else detGet info.details "mean"
                       - threshold * detGet info.details "std_dev"))
                    (if detection_method = "iqr" then detGet info.details "upper_bound"
                     else detGet info.details "mean"
                       + threshold * detGet info.details "std_dev"))
                | none => Value.vnull))) }) := by
    unfold handle_outliers
    rw [hdet]
    simp [hcnt]
  rw [heq]
  refine ⟨rfl, ?_⟩
  exact Table.column_setCol e.df column _ hrect (by simp [Table.column])

/-- Concrete engine and oracle for the C10 witness: the column
[0, 0, 0, 8, 'x'] under zscore detection, with the square-root oracle fixed
at 4 (the detection theorem quantifies over the oracle, so any value
serves); threshold 1 flags only the 8. -/
def engC10 : Engine := ⟨[], ⟨["a"],
  [[Value.vnum 0], [Value.vnum 0], [Value.vnum 0], [Value.vnum 8], [Value.vstr "x"]]⟩⟩

/-- The constant-4 square-root oracle used by the C10 witness. -/
def oracle4 : Oracle := ⟨fun _ => 4, fun _ => none⟩

/-- The detection envelope the C10 witness feeds to the clip theorem. -/
def infoC10 : DetectInfo :=
  ⟨"a", "zscore", 1, [3],
    [("mean", some 2), ("std_dev", some 4), ("threshold", some 1)], none⟩

/-- C10 witness: the clip clause discharged at the concrete column
[0, 0, 0, 8, 'x'] — every cell is overwritten with its clamped coercion
(the unflagged zeros included) and the non-coercible cell becomes null. -/
theorem C10_clip_overwrites_column_witness :
    (detect_outliers_core oracle4 engC10.df "a" "zscore" 1 = Except.ok infoC10
      ∧ infoC10.outlierCount ≠ 0)
    ∧ (handle_outliers oracle4 engC10 "a" "clip" "zscore" 1).1.isError = false
    ∧ (handle_outliers oracle4 engC10 "a" "clip" "zscore" 1).2.df.column "a"
        = ((engC10.df.column "a").map Value.coerceNum).map
            (fun o =>
              match o with
              | some x => Value.vnum (min (max x
                  (if ("zscore" : String) = "iqr" then detGet infoC10.details "lower_bound"
                   else detGet infoC10.details "mean"
                     - 1 * detGet infoC10.details "std_dev"))
                  (if ("zscore" : String) = "iqr" then detGet infoC10.details "upper_bound"
                   else detGet infoC10.details "mean"
                     + 1 * detGet infoC10.details "std_dev"))
              | none => Value.vnull) := by
  have hdet : detect_outliers_core oracle4 engC10.df "a" "zscore" 1
      = Except.ok infoC10 := by
    have hx : parseNumString "x" = none := by decide
    have ha : |(1 : ℚ)/2| = 1/2 := abs_of_pos (by norm_num)
    have hb : |(3 : ℚ)/2| = 3/2 := abs_of_pos (by norm_num)
    unfold engC10 oracle4 infoC10
    norm_num +decide [detect_outliers_core, Table.isEmpty, Table.hasCol, Table.column,
      Value.coerceNum, hx, qmean, List.filterMap_cons, ha, hb]
  have h := C10_clip_overwrites_column oracle4 engC10 "a" "zscore" 1 infoC10
    hdet (by decide) (by decide)
  exact ⟨⟨hdet, by decide⟩, h.1, h.2⟩

/-- C4: after any sequence of operations the stored original snapshot still
equals the construction row-set, and reset_changes replaces the working
table with the table built at construction time. -/
theorem C4_reset_restores_original (O : Oracle)
    (data : List (List (String × Value))) (ops : List Op) :
    (runOps O (Engine.init data) ops).original_data = data
    ∧ (reset_changes (runOps O (Engine.init data) ops)).2.df = (Engine.init data).df := by
  have h := runOps_orig O ops (Engine.init data)
  refine ⟨h, ?_⟩
  show mkTable (runOps O (Engine.init data) ops).original_data = _
  rw [h]
  rfl

end DataTales
